import Mathlib

/-!
Verification of the Global Platform T=1' protocol engine
(`src/rpi_application/libs/t1prime/src/t1prime.c`) against its
natural-language specification.

The development shallowly embeds the C code: machine bytes are `Nat`
values (< 256 by the C types, stated as hypotheses where needed),
`uint16_t` truncation is explicit `% 65536`, buffers are `List Nat`,
fallible functions return `Except`, and the transport is a list of
per-block reception outcomes consumed by the engine.
-/

namespace T1Prime


/-! ### CRC-16 CCITT X.25 -/

/-- Modelled from the spec: the body of `crc16_ccitt_x25` is not part of the
source tree (only `libs/crc/include/ifx/crc.h` and its test vectors are).
The spec defines it as CCITT-X.25: polynomial 0x1021, init 0xFFFF, reflected
in and out, final XOR 0xFFFF; reflected form uses polynomial 0x8408.
One shift-and-conditional-xor round of the reflected CRC. -/
def crcRound (c : Nat) : Nat :=
  if c % 2 == 1 then (c / 2) ^^^ 0x8408 else c / 2

/-- Modelled from the spec: folds one data byte into the running CRC
(xor byte into the low bits, then eight reflected rounds). The xor is
truncated to 16 bits as the C accumulator is `uint16_t`. -/
def crc16_update (c b : Nat) : Nat :=
  crcRound (crcRound (crcRound (crcRound (crcRound (crcRound (crcRound (crcRound ((c ^^^ b) % 65536))))))))

/-- Modelled from the spec: `crc16_ccitt_x25` over a byte list.  Matches the
repository's test vectors: `[0x01,0x02,0x03,0x04] ↦ 0x3991` and `[] ↦ 0`. -/
def crc16_ccitt_x25 (data : List Nat) : Nat :=
  (data.foldl crc16_update 0xFFFF) ^^^ 0xFFFF

/-! ### Blocks and the block codec -/

/-- A T=1' block (`struct Block`): node address, protocol control byte and
information field. `information_size` of the C struct is the list length. -/
structure Block where
  nad : Nat
  pcb : Nat
  information : List Nat
  deriving Repr, DecidableEq

/-- Error categories surfaced by the embedded functions, mirroring the
`IFX_ERROR` reason codes used in `t1prime.c`. -/
inductive T1Err where
  | tooLittleData
  | informationSizeMismatch
  | invalidCrc
  | invalidBlock
  | transceiveAborted
  | illegalArgument
  | invalidLength
  | invalidPlid
  deriving Repr, DecidableEq

instance {ε α : Type} [DecidableEq ε] [DecidableEq α] : DecidableEq (Except ε α)
  | .error e, .error f => decidable_of_iff (e = f) (by simp)
  | .error _, .ok _ => isFalse (by simp)
  | .ok _, .error _ => isFalse (by simp)
  | .ok x, .ok y => decidable_of_iff (x = y) (by simp)

/-- The four prologue bytes NAD‖PCB‖LEN as assembled by both
`t1prime_validate_crc` and `t1prime_block_encode`. -/
def blockPrologue (b : Block) : List Nat :=
  [b.nad, b.pcb, (b.information.length &&& 0xff00) >>> 8, b.information.length &&& 0xff]

/-- `t1prime_validate_crc`: recomputes the CRC over prologue‖information and
compares with the expected value. -/
def t1prime_validate_crc (b : Block) (expected : Nat) : Bool :=
  crc16_ccitt_x25 (blockPrologue b ++ b.information) == expected

/-- `t1prime_block_encode`: prologue‖information‖big-endian CRC. -/
def t1prime_block_encode (b : Block) : List Nat :=
  let body := blockPrologue b ++ b.information
  let crc := crc16_ccitt_x25 body
  body ++ [(crc &&& 0xff00) >>> 8, crc &&& 0xff]

/-- The big-endian 16-bit LEN field read at offsets 2..3 by
`t1prime_block_decode` (`(data[2] << 8) | data[3]`). -/
def blockLEN (x : List Nat) : Nat := (x.getD 2 0) <<< 8 ||| x.getD 3 0

/-- The big-endian CRC read from the last two bytes by `t1prime_block_decode`
(`(data[data_len - 2] << 8) | data[data_len - 1]`). -/
def epilogueCRC (x : List Nat) : Nat :=
  (x.getD (x.length - 2) 0) <<< 8 ||| x.getD (x.length - 1) 0

/-- `t1prime_block_decode`: requires ≥ 6 bytes, reads LEN at offsets 2..3,
requires the total length to be 4 + LEN + 2, and validates the CRC. -/
def t1prime_block_decode (x : List Nat) : Except T1Err Block :=
  if x.length < 6 then .error .tooLittleData
  else if x.length ≠ 4 + blockLEN x + 2 then .error .informationSizeMismatch
  else if t1prime_validate_crc ⟨x.getD 0 0, x.getD 1 0, (x.drop 4).take (blockLEN x)⟩
      (epilogueCRC x)
    then .ok ⟨x.getD 0 0, x.getD 1 0, (x.drop 4).take (blockLEN x)⟩
    else .error .invalidCrc

/-! ### IFS encoding/decoding -/

/-- `T1PRIME_MAX_IFS` -/
def T1PRIME_MAX_IFS : Nat := 0xff9

/-- `t1prime_ifs_encode`: rejects 0 and values above `T1PRIME_MAX_IFS`;
one byte for values ≤ 0xFE, otherwise two bytes (nibble-masked MSB, LSB). -/
def t1prime_ifs_encode (ifs : Nat) : Except T1Err (List Nat) :=
  if ifs = 0 ∨ ifs > T1PRIME_MAX_IFS then .error .illegalArgument
  else if ifs ≤ 0xfe then .ok [ifs &&& 0xff]
  else .ok [(ifs &&& 0x0f00) >>> 8, ifs &&& 0xff]

/-- `t1prime_ifs_decode`: accepts one or two bytes, big-endian, and validates
the decoded value against `T1PRIME_MAX_IFS`. -/
def t1prime_ifs_decode (data : List Nat) : Except T1Err Nat :=
  if data.length < 1 ∨ data.length > 2 then .error .illegalArgument
  else
    let v := if data.length = 1 then data.getD 0 0 else (data.getD 0 0) <<< 8 ||| data.getD 1 0
    if v > T1PRIME_MAX_IFS then .error .illegalArgument
    else .ok v

/-! ### PCB constructors and classifiers (the `T1PRIME_PCB_*` macros) -/

/-- `NAD_HD_TO_SE` -/
def NAD_HD_TO_SE : Nat := 0x21

/-- `T1PRIME_PCB_I(ns, m)` -/
def T1PRIME_PCB_I (ns : Nat) (m : Bool) : Nat :=
  (if ns ≠ 0 then 0x40 else 0x00) ||| (if m then 0x20 else 0x00)

/-- `T1PRIME_PCB_IS_I(pcb)` -/
def T1PRIME_PCB_IS_I (pcb : Nat) : Bool := pcb &&& 0x80 == 0x00

/-- `T1PRIME_PCB_I_GET_NS(pcb)` -/
def T1PRIME_PCB_I_GET_NS (pcb : Nat) : Nat := (pcb &&& 0x40) >>> 6

/-- `T1PRIME_PCB_I_HAS_MORE(pcb)` -/
def T1PRIME_PCB_I_HAS_MORE (pcb : Nat) : Bool := pcb &&& 0x20 == 0x20

/-- `T1PRIME_PCB_R(nr, type)` -/
def T1PRIME_PCB_R (nr ty : Nat) : Nat :=
  0x80 ||| (if nr ≠ 0 then 0x10 else 0x00) ||| (ty &&& 0x0f)

/-- `T1PRIME_PCB_IS_R(pcb)` -/
def T1PRIME_PCB_IS_R (pcb : Nat) : Bool := pcb &&& 0xC0 == 0x80

/-- `T1PRIME_PCB_R_GET_NR(pcb)` -/
def T1PRIME_PCB_R_GET_NR (pcb : Nat) : Nat := (pcb &&& 0x10) >>> 4

/-- `T1PRIME_PCB_R_ACK(nr)` -/
def T1PRIME_PCB_R_ACK (nr : Nat) : Nat := T1PRIME_PCB_R nr 0x00

/-- `T1PRIME_PCB_R_CRC(nr)` -/
def T1PRIME_PCB_R_CRC (nr : Nat) : Nat := T1PRIME_PCB_R nr 0x01

/-- `T1PRIME_PCB_S(type, is_response)` -/
def T1PRIME_PCB_S (ty : Nat) (is_response : Bool) : Nat :=
  0xC0 ||| (if is_response then 0x20 else 0x00) ||| (ty &&& 0x0f)

/-- `T1PRIME_PCB_IS_S(pcb)` -/
def T1PRIME_PCB_IS_S (pcb : Nat) : Bool := pcb &&& 0xC0 == 0xC0

/-- `T1PRIME_PCB_S_IS_REQUEST(pcb)` -/
def T1PRIME_PCB_S_IS_REQUEST (pcb : Nat) : Bool := pcb &&& 0x20 == 0x00

/-- `T1PRIME_PCB_S_GET_TYPE(pcb)` -/
def T1PRIME_PCB_S_GET_TYPE (pcb : Nat) : Nat := pcb &&& 0x1f

/-- `T1PRIME_PCB_S_RESYNCH_REQ` (= 0xC0) and its peers. -/
def T1PRIME_PCB_S_RESYNCH_REQ : Nat := T1PRIME_PCB_S 0x0 false

/-- `T1PRIME_PCB_S_RESYNCH_RESP` (= 0xE0) -/
def T1PRIME_PCB_S_RESYNCH_RESP : Nat := T1PRIME_PCB_S 0x0 true

/-- `T1PRIME_PCB_S_IFS_REQ` (= 0xC1) -/
def T1PRIME_PCB_S_IFS_REQ : Nat := T1PRIME_PCB_S 0x1 false

/-- `T1PRIME_PCB_S_IFS_RESP` (= 0xE1) -/
def T1PRIME_PCB_S_IFS_RESP : Nat := T1PRIME_PCB_S 0x1 true

/-- `T1PRIME_PCB_S_ABORT_REQ` (= 0xC2) -/
def T1PRIME_PCB_S_ABORT_REQ : Nat := T1PRIME_PCB_S 0x2 false

/-- `T1PRIME_PCB_S_ABORT_RESP` (= 0xE2) -/
def T1PRIME_PCB_S_ABORT_RESP : Nat := T1PRIME_PCB_S 0x2 true

/-- `T1PRIME_PCB_S_WTX_REQ` (= 0xC3) -/
def T1PRIME_PCB_S_WTX_REQ : Nat := T1PRIME_PCB_S 0x3 false

/-- `T1PRIME_PCB_S_WTX_RESP` (= 0xE3) -/
def T1PRIME_PCB_S_WTX_RESP : Nat := T1PRIME_PCB_S 0x3 true

/-- `T1PRIME_PCB_S_CIP_REQ` (= 0xC4) -/
def T1PRIME_PCB_S_CIP_REQ : Nat := T1PRIME_PCB_S 0x4 false

/-- `T1PRIME_PCB_S_CIP_RESP` (= 0xE4) -/
def T1PRIME_PCB_S_CIP_RESP : Nat := T1PRIME_PCB_S 0x4 true

/-- `T1PRIME_PCB_S_SWR_REQ` (= 0xCF) -/
def T1PRIME_PCB_S_SWR_REQ : Nat := T1PRIME_PCB_S 0xf false

/-- `T1PRIME_PCB_S_SWR_RESP` (= 0xEF) -/
def T1PRIME_PCB_S_SWR_RESP : Nat := T1PRIME_PCB_S 0xf true

/-! ### Protocol state -/

/-- `T1PRIME_DEFAULT_IFSC` -/
def T1PRIME_DEFAULT_IFSC : Nat := 0x08

/-- `T1PRIME_DEFAULT_BWT` -/
def T1PRIME_DEFAULT_BWT : Nat := 300

/-- `T1PRIME_DEFAULT_I2C_MPOT` -/
def T1PRIME_DEFAULT_I2C_MPOT : Nat := 10

/-- `T1PRIME_BLOCK_TRANSCEIVE_RETRIES` -/
def T1PRIME_BLOCK_TRANSCEIVE_RETRIES : Nat := 2

/-- `T1PrimeProtocolState`: BWT, MPOT, IFSC, sequence counters and the
pending WTX delay. -/
structure ProtocolState where
  bwt : Nat
  mpot : Nat
  ifsc : Nat
  send_counter : Nat
  receive_counter : Nat
  wtx_delay : Nat
  deriving Repr, DecidableEq

/-- The lazily initialized protocol state of `t1prime_get_protocol_state`
(I²C build): `bwt = T1PRIME_DEFAULT_BWT`, `ifsc = T1PRIME_MAX_IFS`,
counters and WTX delay zero, `mpot = T1PRIME_DEFAULT_I2C_MPOT`. -/
def initialProtocolState : ProtocolState :=
  { bwt := T1PRIME_DEFAULT_BWT
    mpot := T1PRIME_DEFAULT_I2C_MPOT
    ifsc := T1PRIME_MAX_IFS
    send_counter := 0x00
    receive_counter := 0x00
    wtx_delay := 0x00 }

/-! ### Block transceive with bounded retries

The transport is a list of per-block reception outcomes: each entry is either
a successfully framed block or the reception error (`t1prime_block_receive`
timeout or decode failure). An empty list behaves as a BWT timeout
(`TooLittleData`), exactly what `t1prime_block_receive` reports when no valid
NAD arrives. -/

/-- One reception outcome of `t1prime_block_receive`. -/
abbrev RecvOutcome := Except T1Err Block

/-- Result of `t1prime_block_transceive`: final status, protocol state, the
blocks actually handed to the transport, and the unconsumed outcomes. -/
structure BTResult where
  status : Except T1Err Block
  state : ProtocolState
  sent : List Block
  rest : List RecvOutcome
  deriving Repr, DecidableEq

/-- Decision taken by one iteration of the `t1prime_block_transceive`
do-while body on a reception outcome. -/
inductive BTStep where
  | done (status : Except T1Err Block)
  | retry (e : T1Err)
  deriving Repr, DecidableEq

/-- Response validation of one `t1prime_block_transceive` iteration: a
request S-block demands a matching-type response S-block (an R-block with
wrong `N(R)` or any I-block aborts immediately, everything else retries);
any other sent block accepts any successfully received block. -/
def t1prime_block_transceive_iter (st : ProtocolState) (orig : Block)
    (received : RecvOutcome) : BTStep :=
  match received with
  | .error e => .retry e
  | .ok rb =>
    if T1PRIME_PCB_IS_S orig.pcb && T1PRIME_PCB_S_IS_REQUEST orig.pcb then
      if T1PRIME_PCB_IS_S rb.pcb && !T1PRIME_PCB_S_IS_REQUEST rb.pcb then
        if T1PRIME_PCB_S_GET_TYPE orig.pcb == T1PRIME_PCB_S_GET_TYPE rb.pcb then
          .done (.ok rb)
        else .retry .invalidBlock
      else if T1PRIME_PCB_IS_R rb.pcb then
        if T1PRIME_PCB_R_GET_NR rb.pcb ≠ st.send_counter then .done (.error .invalidBlock)
        else .retry .invalidBlock
      else if T1PRIME_PCB_IS_I rb.pcb then .done (.error .invalidBlock)
      else .retry .invalidBlock
    else .done (.ok rb)

/-- The retry loop of `t1prime_block_transceive` with `tries` retries left.
Each iteration transmits `to_send` (rejecting information larger than IFSC),
consumes the pending WTX delay, receives one outcome and dispatches; on
retry, all blocks besides request S-blocks are replaced by
`R(crc_error, N(R) = receive counter)`. -/
def t1prime_block_transceive_aux : Nat → ProtocolState → Block → Block →
    List RecvOutcome → BTResult
  | tries, st, orig, to_send, outs =>
    if to_send.information.length > st.ifsc then
      ⟨.error .illegalArgument, st, [], outs⟩
    else
      let st1 := { st with wtx_delay := 0 }
      let received := match outs with
        | [] => .error .tooLittleData
        | o :: _ => o
      match t1prime_block_transceive_iter st1 orig received with
      | .done status => ⟨status, st1, [to_send], outs.tail⟩
      | .retry e =>
        match tries with
        | 0 => ⟨.error e, st1, [to_send], outs.tail⟩
        | t + 1 =>
          let next := if T1PRIME_PCB_IS_S orig.pcb && T1PRIME_PCB_S_IS_REQUEST orig.pcb
            then to_send
            else ⟨0x21, T1PRIME_PCB_R_CRC st1.receive_counter, []⟩
          let r := t1prime_block_transceive_aux t st1 orig next outs.tail
          ⟨r.status, r.state, to_send :: r.sent, r.rest⟩

/-- `t1prime_block_transceive`: the retry loop entered with the original
block and the full retry budget. -/
def t1prime_block_transceive (st : ProtocolState) (b : Block)
    (outs : List RecvOutcome) : BTResult :=
  t1prime_block_transceive_aux T1PRIME_BLOCK_TRANSCEIVE_RETRIES st b b outs

/-! ### The transceive engine (`t1prime_transceive`) -/

/-- Result of the send chain: on success, the first response I-block that
switches the call to the receive direction. -/
structure SendResult where
  status : Except T1Err Block
  state : ProtocolState
  sent : List Block
  rest : List RecvOutcome
  deriving Repr, DecidableEq

/-- Result of a whole `t1prime_transceive` call (and of its receive chain). -/
structure TRResult where
  status : Except T1Err (List Nat)
  state : ProtocolState
  sent : List Block
  rest : List RecvOutcome
  deriving Repr, DecidableEq

/-- The send-direction loop of `t1prime_transceive` (first `while` loop in
the C code). `offset`/`remaining` track the position into `data`, `lastSize`
the size of the outstanding chunk, `txPcb`/`txInfo` the block about to be
sent, `aborted` whether an `S(ABORT request)` was answered. `fuel` bounds the
recursion; every recursive step has consumed at least one reception outcome,
so `outs.length + 1` fuel is always enough. -/
def sendLoopAux : Nat → ProtocolState → List Nat → Nat → Nat → Nat → Nat →
    List Nat → Bool → List RecvOutcome → SendResult
  | 0, st, _, _, _, _, _, _, _, outs => ⟨.error .invalidBlock, st, [], outs⟩
  | fuel + 1, st, data, offset, remaining, lastSize, txPcb, txInfo, aborted, outs =>
    let r := t1prime_block_transceive st ⟨0x21, txPcb, txInfo⟩ outs
    match r.status with
    | .error e => ⟨.error e, r.state, r.sent, r.rest⟩
    | .ok rb =>
      if T1PRIME_PCB_IS_I rb.pcb then
        -- I(N(S), M): the card starts answering
        if remaining - lastSize > 0 then ⟨.error .invalidBlock, r.state, r.sent, r.rest⟩
        else
          ⟨.ok rb, { r.state with send_counter := r.state.send_counter ^^^ 0x01 },
            r.sent, r.rest⟩
      else if T1PRIME_PCB_IS_R rb.pcb then
        if (r.state.send_counter ^^^ 0x01) == T1PRIME_PCB_R_GET_NR rb.pcb then
          -- card acknowledges: next chunk, last chunk handled, or aborted
          if aborted then ⟨.error .transceiveAborted, r.state, r.sent, r.rest⟩
          else if remaining - lastSize == 0 then
            let s := sendLoopAux fuel r.state data offset remaining lastSize
              (T1PRIME_PCB_R_CRC r.state.receive_counter) [] aborted r.rest
            ⟨s.status, s.state, r.sent ++ s.sent, s.rest⟩
          else
            let remaining' := remaining - lastSize
            let offset' := offset + lastSize
            let st' := { r.state with send_counter := r.state.send_counter ^^^ 0x01 }
            let size' := min remaining' st'.ifsc
            let s := sendLoopAux fuel st' data offset' remaining' size'
              (T1PRIME_PCB_I st'.send_counter (remaining' - size' > 0))
              ((data.drop offset').take size') aborted r.rest
            ⟨s.status, s.state, r.sent ++ s.sent, s.rest⟩
        else
          -- card wants a retransmission of the current chunk
          let s := sendLoopAux fuel r.state data offset remaining lastSize
            (T1PRIME_PCB_I r.state.send_counter (remaining - lastSize > 0))
            ((data.drop offset).take lastSize) aborted r.rest
          ⟨s.status, s.state, r.sent ++ s.sent, s.rest⟩
      else if rb.pcb == T1PRIME_PCB_S_WTX_REQ then
        if rb.information.length ≠ 1 then ⟨.error .invalidBlock, r.state, r.sent, r.rest⟩
        else
          let st' := { r.state with wtx_delay := rb.information.getD 0 0 * r.state.bwt }
          let s := sendLoopAux fuel st' data offset remaining lastSize
            T1PRIME_PCB_S_WTX_RESP rb.information aborted r.rest
          ⟨s.status, s.state, r.sent ++ s.sent, s.rest⟩
      else if rb.pcb == T1PRIME_PCB_S_IFS_REQ then
        match t1prime_ifs_decode rb.information with
        | .error e => ⟨.error e, r.state, r.sent, r.rest⟩
        | .ok ifs =>
          let lastSize' := min ifs lastSize
          let s := sendLoopAux fuel r.state data offset remaining lastSize'
            T1PRIME_PCB_S_IFS_RESP rb.information aborted r.rest
          ⟨s.status, s.state, r.sent ++ s.sent, s.rest⟩
      else if rb.pcb == T1PRIME_PCB_S_ABORT_REQ then
        let s := sendLoopAux fuel r.state data offset remaining lastSize
          T1PRIME_PCB_S_ABORT_RESP [] true r.rest
        ⟨s.status, s.state, r.sent ++ s.sent, s.rest⟩
      else ⟨.error .invalidBlock, r.state, r.sent, r.rest⟩

/-- The receive-direction loop of `t1prime_transceive` (second `while` loop).
`acc = none` models the still-NULL `*response` buffer. -/
def recvLoopAux : Nat → ProtocolState → Option (List Nat) → Block →
    List RecvOutcome → TRResult
  | 0, st, _, _, outs => ⟨.error .invalidBlock, st, [], outs⟩
  | fuel + 1, st, acc, rb, outs =>
    if T1PRIME_PCB_IS_I rb.pcb then
      if T1PRIME_PCB_I_GET_NS rb.pcb ≠ st.receive_counter then
        ⟨.error .invalidBlock, st, [], outs⟩
      else if acc = none && rb.information.length == 0 then
        -- first response I-block must carry data
        ⟨.error .invalidBlock, st, [], outs⟩
      else
        let acc' := match acc with
          | none => rb.information
          | some xs => if rb.information.length > 0 then xs ++ rb.information else xs
        let st' := { st with receive_counter := st.receive_counter ^^^ 0x01 }
        if T1PRIME_PCB_I_HAS_MORE rb.pcb then
          let r := t1prime_block_transceive st'
            ⟨0x21, T1PRIME_PCB_R_ACK st'.receive_counter, []⟩ outs
          match r.status with
          | .error e => ⟨.error e, r.state, r.sent, r.rest⟩
          | .ok rb' =>
            let s := recvLoopAux fuel r.state (some acc') rb' r.rest
            ⟨s.status, s.state, r.sent ++ s.sent, s.rest⟩
        else ⟨.ok acc', st', [], outs⟩
    else if T1PRIME_PCB_IS_R rb.pcb then
      -- wrong N(R) only discards the accumulated response, then both cases
      -- answer with R(ack, N(R) = receive counter)
      let acc' := if T1PRIME_PCB_R_GET_NR rb.pcb ≠ st.send_counter then none else acc
      let r := t1prime_block_transceive st
        ⟨0x21, T1PRIME_PCB_R_ACK st.receive_counter, []⟩ outs
      match r.status with
      | .error e => ⟨.error e, r.state, r.sent, r.rest⟩
      | .ok rb' =>
        let s := recvLoopAux fuel r.state acc' rb' r.rest
        ⟨s.status, s.state, r.sent ++ s.sent, s.rest⟩
    else if rb.pcb == T1PRIME_PCB_S_ABORT_REQ then
      -- answer S(ABORT response), drop the accumulator, surface the abort
      let r := t1prime_block_transceive st ⟨0x21, T1PRIME_PCB_S_ABORT_RESP, []⟩ outs
      ⟨.error .transceiveAborted, r.state, r.sent, r.rest⟩
    else ⟨.error .invalidBlock, st, [], outs⟩

/-- `t1prime_transceive`: validates the request, runs the send chain and, on
the terminating I-block, the receive chain. -/
def t1prime_transceive (st : ProtocolState) (data : List Nat)
    (outs : List RecvOutcome) : TRResult :=
  if data.length = 0 then ⟨.error .illegalArgument, st, [], outs⟩
  else
    let size := min data.length st.ifsc
    let s := sendLoopAux (outs.length + 1) st data 0 data.length size
      (T1PRIME_PCB_I st.send_counter (data.length - size > 0)) (data.take size) false outs
    match s.status with
    | .error e => ⟨.error e, s.state, s.sent, s.rest⟩
    | .ok rb =>
      let r := recvLoopAux (s.rest.length + 1) s.state none rb s.rest
      ⟨r.status, r.state, s.sent ++ r.sent, r.rest⟩

/-! ### CIP, DLLP and I²C PLP parsing -/

/-- `PLID_SPI` -/
def PLID_SPI : Nat := 0x01

/-- `PLID_I2C` -/
def PLID_I2C : Nat := 0x02

/-- `struct CIP`: each `_len` field of the C struct is the list length. -/
structure CIP where
  version : Nat
  iin : List Nat
  plid : Nat
  plp : List Nat
  dllp : List Nat
  hb : List Nat
  deriving Repr, DecidableEq

/-- `struct DLLP` -/
structure DLLP where
  bwt : Nat
  ifsc : Nat
  deriving Repr, DecidableEq

/-- `struct I2CPLP` -/
structure I2CPLP where
  configuration : Nat
  pwt : Nat
  mcf : Nat
  pst : Nat
  mpot : Nat
  rwgt : Nat
  deriving Repr, DecidableEq

/-- `t1prime_cip_validate`: IIN 3..4 bytes, PLP at least 12 (SPI) or 8 (I²C)
bytes, DLLP at least 4 bytes. -/
def t1prime_cip_validate (cip : CIP) : Except T1Err Unit :=
  if cip.iin.length < 3 ∨ 4 < cip.iin.length then .error .invalidLength
  else if cip.plid = PLID_SPI then
    if cip.plp.length < 12 then .error .tooLittleData
    else if cip.dllp.length < 4 then .error .tooLittleData
    else .ok ()
  else if cip.plid = PLID_I2C then
    if cip.plp.length < 8 then .error .tooLittleData
    else if cip.dllp.length < 4 then .error .tooLittleData
    else .ok ()
  else .error .invalidPlid

/-- `t1prime_cip_decode`: sequential parse of
`version | iin_len | iin | plid | plp_len | plp | dllp_len | dllp | hb_len | hb`
with the C code's running-offset bounds checks, then validation. -/
def t1prime_cip_decode (data : List Nat) : Except T1Err CIP :=
  if data.length < 6 then .error .tooLittleData
  else
    let iin_len := data.getD 1 0
    if 2 + iin_len + 4 > data.length then .error .tooLittleData
    else
      let o1 := 2 + iin_len
      let plp_len := data.getD (o1 + 1) 0
      if o1 + 2 + plp_len + 2 > data.length then .error .tooLittleData
      else
        let o2 := o1 + 2 + plp_len
        let dllp_len := data.getD o2 0
        if o2 + 1 + dllp_len + 1 > data.length then .error .tooLittleData
        else
          let o3 := o2 + 1 + dllp_len
          let hb_len := data.getD o3 0
          if o3 + 1 + hb_len ≠ data.length then .error .invalidLength
          else
            let cip : CIP := ⟨data.getD 0 0, (data.drop 2).take iin_len, data.getD o1 0,
              (data.drop (o1 + 2)).take plp_len, (data.drop (o2 + 1)).take dllp_len,
              (data.drop (o3 + 1)).take hb_len⟩
            match t1prime_cip_validate cip with
            | .error e => .error e
            | .ok _ => .ok cip

/-- `t1prime_dllp_decode`: big-endian BWT then initial IFSC, stored into
`uint16_t` fields. -/
def t1prime_dllp_decode (encoded : List Nat) : Except T1Err DLLP :=
  if encoded.length < 4 then .error .tooLittleData
  else .ok ⟨((encoded.getD 0 0) <<< 8 ||| encoded.getD 1 0) % 65536,
            ((encoded.getD 2 0) <<< 8 ||| encoded.getD 3 0) % 65536⟩

/-- `t1prime_i2c_plp_decode` -/
def t1prime_i2c_plp_decode (encoded : List Nat) : Except T1Err I2CPLP :=
  if encoded.length < 8 then .error .tooLittleData
  else .ok ⟨encoded.getD 0 0, encoded.getD 1 0,
            ((encoded.getD 2 0) <<< 8 ||| encoded.getD 3 0) % 65536,
            encoded.getD 4 0, encoded.getD 5 0,
            ((encoded.getD 6 0) <<< 8 ||| encoded.getD 7 0) % 65536⟩

/-! ### Supervisory operations and activation -/

/-- Result of an operation returning no user bytes. -/
structure OpResult where
  status : Except T1Err Unit
  state : ProtocolState
  sent : List Block
  rest : List RecvOutcome
  deriving Repr, DecidableEq

/-- `s_resynch`: S(RESYNCH request)/response, then reset both counters. -/
def s_resynch (st : ProtocolState) (outs : List RecvOutcome) : OpResult :=
  let r := t1prime_block_transceive st ⟨NAD_HD_TO_SE, T1PRIME_PCB_S_RESYNCH_REQ, []⟩ outs
  match r.status with
  | .error e => ⟨.error e, r.state, r.sent, r.rest⟩
  | .ok resp =>
    if resp.pcb ≠ T1PRIME_PCB_S_RESYNCH_RESP then ⟨.error .invalidBlock, r.state, r.sent, r.rest⟩
    else ⟨.ok (), { r.state with send_counter := 0x00, receive_counter := 0x00 },
      r.sent, r.rest⟩

/-- `s_swr`: S(SWR request)/response, then reset both counters. -/
def s_swr (st : ProtocolState) (outs : List RecvOutcome) : OpResult :=
  let r := t1prime_block_transceive st ⟨NAD_HD_TO_SE, T1PRIME_PCB_S_SWR_REQ, []⟩ outs
  match r.status with
  | .error e => ⟨.error e, r.state, r.sent, r.rest⟩
  | .ok resp =>
    if resp.pcb ≠ T1PRIME_PCB_S_SWR_RESP then ⟨.error .invalidBlock, r.state, r.sent, r.rest⟩
    else ⟨.ok (), { r.state with send_counter := 0x00, receive_counter := 0x00 },
      r.sent, r.rest⟩

/-- `t1prime_set_ifsd`: S(IFS request) carrying the encoded IFS, expecting an
S(IFS response) whose information decodes back to the requested value. -/
def t1prime_set_ifsd (st : ProtocolState) (ifsd : Nat) (outs : List RecvOutcome) : OpResult :=
  match t1prime_ifs_encode ifsd with
  | .error e => ⟨.error e, st, [], outs⟩
  | .ok enc =>
    let r := t1prime_block_transceive st ⟨0x21, T1PRIME_PCB_S_IFS_REQ, enc⟩ outs
    match r.status with
    | .error e => ⟨.error e, r.state, r.sent, r.rest⟩
    | .ok resp =>
      if resp.pcb ≠ T1PRIME_PCB_S_IFS_RESP then ⟨.error .invalidBlock, r.state, r.sent, r.rest⟩
      else match t1prime_ifs_decode resp.information with
        | .error _ => ⟨.error .invalidBlock, r.state, r.sent, r.rest⟩
        | .ok v =>
          if v ≠ ifsd then ⟨.error .invalidBlock, r.state, r.sent, r.rest⟩
          else ⟨.ok (), r.state, r.sent, r.rest⟩

/-- `t1prime_set_bwt`: local mutator. -/
def t1prime_set_bwt (st : ProtocolState) (bwt : Nat) : ProtocolState :=
  { st with bwt := bwt % 65536 }

/-- `t1prime_activate` (I²C build): restore defaults, query the CIP, apply
the DLLP (BWT and IFSC, unvalidated), apply the I²C PLP polling time, then
resynchronize the sequence counters. -/
def t1prime_activate (st : ProtocolState) (outs : List RecvOutcome) : OpResult :=
  let st0 := { st with ifsc := T1PRIME_DEFAULT_IFSC, bwt := T1PRIME_DEFAULT_BWT }
  let r := t1prime_block_transceive st0 ⟨NAD_HD_TO_SE, T1PRIME_PCB_S_CIP_REQ, []⟩ outs
  match r.status with
  | .error e => ⟨.error e, r.state, r.sent, r.rest⟩
  | .ok resp =>
    if resp.pcb ≠ T1PRIME_PCB_S_CIP_RESP then ⟨.error .invalidBlock, r.state, r.sent, r.rest⟩
    else match t1prime_cip_decode resp.information with
    | .error e => ⟨.error e, r.state, r.sent, r.rest⟩
    | .ok cip =>
      match t1prime_dllp_decode cip.dllp with
      | .error e => ⟨.error e, r.state, r.sent, r.rest⟩
      | .ok dllp =>
        let st2 := { r.state with bwt := dllp.bwt, ifsc := dllp.ifsc }
        if cip.plid = PLID_I2C then
          match t1prime_i2c_plp_decode cip.plp with
          | .error e => ⟨.error e, st2, r.sent, r.rest⟩
          | .ok plp =>
            let st3 := { st2 with mpot := plp.mpot }
            let r2 := t1prime_block_transceive st3
              ⟨NAD_HD_TO_SE, T1PRIME_PCB_S_RESYNCH_REQ, []⟩ r.rest
            match r2.status with
            | .error e => ⟨.error e, r2.state, r.sent ++ r2.sent, r2.rest⟩
            | .ok resp2 =>
              if resp2.pcb ≠ T1PRIME_PCB_S_RESYNCH_RESP then
                ⟨.error .invalidBlock, r2.state, r.sent ++ r2.sent, r2.rest⟩
              else ⟨.ok (), { r2.state with send_counter := 0x00, receive_counter := 0x00 },
                r.sent ++ r2.sent, r2.rest⟩
        else ⟨.error .invalidPlid, st2, r.sent, r.rest⟩

def isFailureOutcome (b : Block) (o : RecvOutcome) : Bool :=
  match o with
  | .error _ => true
  | .ok rb =>
    T1PRIME_PCB_IS_S b.pcb && T1PRIME_PCB_S_IS_REQUEST b.pcb &&
      !(T1PRIME_PCB_IS_S rb.pcb && !T1PRIME_PCB_S_IS_REQUEST rb.pcb &&
        (T1PRIME_PCB_S_GET_TYPE b.pcb == T1PRIME_PCB_S_GET_TYPE rb.pcb))

/-! ## Theorems -/

/-- One `block_transceive` attempt whose reception dispatches to `.done`:
the retry budget is never consulted. -/
theorem bt_aux_done (tries : Nat) (st : ProtocolState) (orig to_send : Block)
    (o : RecvOutcome) (rest : List RecvOutcome) (status : Except T1Err Block)
    (hlen : ¬ to_send.information.length > st.ifsc)
    (hiter : t1prime_block_transceive_iter { st with wtx_delay := 0 } orig o
      = .done status) :
    t1prime_block_transceive_aux tries st orig to_send (o :: rest)
      = ⟨status, { st with wtx_delay := 0 }, [to_send], rest⟩ := by
  conv_lhs => rw [t1prime_block_transceive_aux]
  rw [if_neg hlen]
  dsimp only [List.tail_cons]
  rw [hiter]

/-- A non-request-S original block accepts any successfully received block. -/
theorem iter_non_sreq (st : ProtocolState) (orig rb : Block)
    (hs : (T1PRIME_PCB_IS_S orig.pcb && T1PRIME_PCB_S_IS_REQUEST orig.pcb) = false) :
    t1prime_block_transceive_iter st orig (.ok rb) = .done (.ok rb) := by
  unfold t1prime_block_transceive_iter
  simp only [hs, Bool.false_eq_true, if_false]

/-- A request S-block answered by the matching-type response S-block. -/
theorem iter_sreq_done (st : ProtocolState) (orig rb : Block)
    (h1 : (T1PRIME_PCB_IS_S orig.pcb && T1PRIME_PCB_S_IS_REQUEST orig.pcb) = true)
    (h2 : (T1PRIME_PCB_IS_S rb.pcb && !T1PRIME_PCB_S_IS_REQUEST rb.pcb) = true)
    (h3 : (T1PRIME_PCB_S_GET_TYPE orig.pcb == T1PRIME_PCB_S_GET_TYPE rb.pcb) = true) :
    t1prime_block_transceive_iter st orig (.ok rb) = .done (.ok rb) := by
  unfold t1prime_block_transceive_iter
  simp only [h1, h2, h3, if_true]


theorem crcRound_lt (c : Nat) (h : c < 65536) : crcRound c < 65536 := by
  unfold crcRound
  split
  · exact Nat.xor_lt_two_pow (n := 16) (by omega) (by norm_num)
  · omega

theorem crc16_update_lt (c b : Nat) : crc16_update c b < 65536 := by
  unfold crc16_update
  have h0 : (c ^^^ b) % 65536 < 65536 := Nat.mod_lt _ (by norm_num)
  repeat apply crcRound_lt
  exact h0

theorem foldl_crc16_update_lt (l : List Nat) (c : Nat) (hc : c < 65536) :
    l.foldl crc16_update c < 65536 := by
  induction l generalizing c with
  | nil => simpa
  | cons x xs ih => rw [List.foldl_cons]; exact ih _ (crc16_update_lt c x)

theorem crc16_ccitt_x25_lt (data : List Nat) : crc16_ccitt_x25 data < 65536 := by
  unfold crc16_ccitt_x25
  exact Nat.xor_lt_two_pow (n := 16) (foldl_crc16_update_lt data 0xFFFF (by norm_num)) (by norm_num)

/-! ### Byte-arithmetic bridging lemmas (uint8/uint16 views of `&&&`, `>>>`, `<<<`, `|||`) -/

theorem and_ff (n : Nat) : n &&& 0xff = n % 256 := by
  have h := Nat.and_pow_two_sub_one_eq_mod n 8
  norm_num at h
  exact h

theorem testBit_ff (j : Nat) : Nat.testBit 0xff j = decide (j < 8) := by
  rw [show ((0xff : Nat) = 2 ^ 8 - 1) from rfl]
  exact Nat.testBit_two_pow_sub_one 8 j

theorem and_ff00_shr (n : Nat) : (n &&& 0xff00) >>> 8 = n / 256 % 256 := by
  apply Nat.eq_of_testBit_eq
  intro j
  simp only [Nat.testBit_shiftRight, Nat.testBit_and]
  rw [show ((0xff00 : Nat) = 0xff <<< 8) from rfl]
  simp only [Nat.testBit_shiftLeft]
  rw [show (n / 256 % 256 = n / 2 ^ 8 % 2 ^ 8) from rfl]
  rw [Nat.testBit_mod_two_pow]
  rw [show (n / 2 ^ 8 = n >>> 8) from (Nat.shiftRight_eq_div_pow n 8).symm]
  simp only [Nat.testBit_shiftRight]
  have h8 : 8 + j - 8 = j := by omega
  rw [h8, testBit_ff]
  by_cases hj : j < 8 <;> simp [hj]

theorem shl_or_eq (a b : Nat) (hb : b < 256) : (a <<< 8) ||| b = a * 256 + b := by
  rw [Nat.shiftLeft_eq]
  have h := Nat.mul_add_lt_is_or (b := b) (i := 8) (by omega) a
  norm_num at h
  rw [Nat.mul_comm a 256]
  omega

theorem len_roundtrip (n : Nat) (h : n < 65536) :
    ((((n &&& 0xff00) >>> 8) <<< 8) ||| (n &&& 0xff)) = n := by
  rw [and_ff00_shr, and_ff, shl_or_eq _ _ (Nat.mod_lt _ (by omega))]
  omega

theorem getD_append_length_add {α : Type} (l₁ l₂ : List α) (n : Nat) (d : α) :
    (l₁ ++ l₂).getD (l₁.length + n) d = l₂.getD n d := by
  induction l₁ with
  | nil => simp
  | cons x xs ih => simpa [Nat.succ_add] using ih

theorem block_decode_encode (b : Block) (h : b.information.length < 65536) :
    t1prime_block_decode (t1prime_block_encode b) = .ok b := by
  obtain ⟨nad, pcb, info⟩ := b
  simp only at h
  have hcrclt := crc16_ccitt_x25_lt (blockPrologue ⟨nad, pcb, info⟩ ++ info)
  set c := crc16_ccitt_x25 (blockPrologue ⟨nad, pcb, info⟩ ++ info) with hc
  have hb : t1prime_block_encode ⟨nad, pcb, info⟩ =
      nad :: pcb :: ((info.length &&& 0xff00) >>> 8) :: (info.length &&& 0xff) ::
        (info ++ [(c &&& 0xff00) >>> 8, c &&& 0xff]) := by
    simp [t1prime_block_encode, blockPrologue, hc]
  rw [hb]
  have hlen : (nad :: pcb :: ((info.length &&& 0xff00) >>> 8) :: (info.length &&& 0xff) ::
      (info ++ [(c &&& 0xff00) >>> 8, c &&& 0xff])).length = 6 + info.length := by
    simp; omega
  have hblen : blockLEN (nad :: pcb :: ((info.length &&& 0xff00) >>> 8) :: (info.length &&& 0xff) ::
      (info ++ [(c &&& 0xff00) >>> 8, c &&& 0xff])) = info.length := by
    simp only [blockLEN, List.getD_cons_succ, List.getD_cons_zero]
    exact len_roundtrip info.length h
  unfold t1prime_block_decode
  rw [if_neg (by rw [hlen]; omega)]
  rw [hblen]
  rw [if_neg (by rw [hlen]; omega)]
  simp only [List.getD_cons_succ, List.getD_cons_zero]
  have hdrop : (nad :: pcb :: ((info.length &&& 0xff00) >>> 8) :: (info.length &&& 0xff) ::
      (info ++ [(c &&& 0xff00) >>> 8, c &&& 0xff])).drop 4 =
      info ++ [(c &&& 0xff00) >>> 8, c &&& 0xff] := rfl
  rw [hdrop, List.take_left]
  unfold epilogueCRC
  have hgd2 : (nad :: pcb :: ((info.length &&& 0xff00) >>> 8) :: (info.length &&& 0xff) ::
        (info ++ [(c &&& 0xff00) >>> 8, c &&& 0xff])).getD
        ((nad :: pcb :: ((info.length &&& 0xff00) >>> 8) :: (info.length &&& 0xff) ::
        (info ++ [(c &&& 0xff00) >>> 8, c &&& 0xff])).length - 2) 0 = (c &&& 0xff00) >>> 8 := by
    rw [hlen, show 6 + info.length - 2 = 4 + info.length by omega]
    simp only [show 4 + info.length = (3 + info.length) + 1 by omega, List.getD_cons_succ,
      show 3 + info.length = (2 + info.length) + 1 by omega,
      show 2 + info.length = (1 + info.length) + 1 by omega,
      show 1 + info.length = info.length + 1 by omega]
    rw [show info.length = info.length + 0 by omega, getD_append_length_add]
    rfl
  have hgd3 : (nad :: pcb :: ((info.length &&& 0xff00) >>> 8) :: (info.length &&& 0xff) ::
        (info ++ [(c &&& 0xff00) >>> 8, c &&& 0xff])).getD
        ((nad :: pcb :: ((info.length &&& 0xff00) >>> 8) :: (info.length &&& 0xff) ::
        (info ++ [(c &&& 0xff00) >>> 8, c &&& 0xff])).length - 1) 0 = c &&& 0xff := by
    rw [hlen, show 6 + info.length - 1 = 5 + info.length by omega]
    simp only [show 5 + info.length = (4 + info.length) + 1 by omega, List.getD_cons_succ,
      show 4 + info.length = (3 + info.length) + 1 by omega,
      show 3 + info.length = (2 + info.length) + 1 by omega,
      show 2 + info.length = (1 + info.length) + 1 by omega]
    rw [show 1 + info.length = info.length + 1 by omega, getD_append_length_add]
    rfl
  rw [hgd2, hgd3, len_roundtrip c hcrclt]
  have hval : t1prime_validate_crc ⟨nad, pcb, info⟩ c = true := by
    simp [t1prime_validate_crc, hc]
  rw [if_pos hval]

theorem getD_mem_of_lt {α : Type} (l : List α) (n : Nat) (d : α) (h : n < l.length) :
    l.getD n d ∈ l := by
  rw [List.getD_eq_getElem?_getD, List.getElem?_eq_getElem h]
  exact List.getElem_mem h

theorem drop_eq_pair {α : Type} (L : Nat) (l : List α) (hl : l.length = L + 2) (d : α) :
    l.drop L = [l.getD L d, l.getD (L + 1) d] := by
  induction L generalizing l with
  | zero =>
    rcases l with _ | ⟨a, _ | ⟨b, _ | ⟨e, tl⟩⟩⟩ <;> simp_all
  | succ n ih =>
    rcases l with _ | ⟨a, tl⟩
    · simp at hl
    · simp only [List.drop_succ_cons, List.getD_cons_succ]
      exact ih tl (by simpa using hl)

theorem getD_cons4 {α : Type} (a b c d : α) (l : List α) (n : Nat) (dflt : α) :
    (a :: b :: c :: d :: l).getD (n + 4) dflt = l.getD n dflt := by
  rw [show n + 4 = n + 1 + 1 + 1 + 1 by omega]
  simp [List.getD_cons_succ]

theorem block_encode_decode (x : List Nat) (hx : ∀ c ∈ x, c < 256) (b : Block)
    (hdec : t1prime_block_decode x = .ok b) : t1prime_block_encode b = x := by
  simp only [t1prime_block_decode] at hdec
  split_ifs at hdec with h1 h2 h3
  rcases x with _ | ⟨a0, _ | ⟨a1, _ | ⟨a2, _ | ⟨a3, rest⟩⟩⟩⟩ <;> simp at h1
  simp only [List.getD_cons_succ, List.getD_cons_zero, List.drop_succ_cons, List.drop_zero,
    Except.ok.injEq] at hdec h2 h3 ⊢
  set L := a2 <<< 8 ||| a3 with hLdef
  have hblen : blockLEN (a0 :: a1 :: a2 :: a3 :: rest) = L := by
    simp [blockLEN, hLdef]
  rw [hblen] at h2 h3 hdec
  simp only [epilogueCRC] at h3
  have ha2 : a2 < 256 := hx a2 (by simp)
  have ha3 : a3 < 256 := hx a3 (by simp)
  have hL : L = a2 * 256 + a3 := shl_or_eq a2 a3 ha3
  have hrest : rest.length = L + 2 := by
    simp only [List.length_cons] at h2
    omega
  -- the decoded information field
  have hinfo : b = ⟨a0, a1, rest.take L⟩ := hdec.symm
  subst hinfo
  have hinfolen : (rest.take L).length = L := by
    rw [List.length_take]
    omega
  -- crc bytes found in the epilogue
  have hr0 : rest.getD L 0 < 256 := by
    refine hx _ ?_
    simp only [List.mem_cons]
    exact Or.inr <| Or.inr <| Or.inr <| Or.inr <| getD_mem_of_lt rest L 0 (by omega)
  have hr1 : rest.getD (L + 1) 0 < 256 := by
    refine hx _ ?_
    simp only [List.mem_cons]
    exact Or.inr <| Or.inr <| Or.inr <| Or.inr <| getD_mem_of_lt rest (L + 1) 0 (by omega)
  -- the CRC equation from the validation step
  have hcrcidx2 : (a0 :: a1 :: a2 :: a3 :: rest).getD ((a0 :: a1 :: a2 :: a3 :: rest).length - 2) 0
      = rest.getD L 0 := by
    simp only [List.length_cons]
    rw [show rest.length + 1 + 1 + 1 + 1 - 2 = L + 4 by omega, getD_cons4]
  have hcrcidx1 : (a0 :: a1 :: a2 :: a3 :: rest).getD ((a0 :: a1 :: a2 :: a3 :: rest).length - 1) 0
      = rest.getD (L + 1) 0 := by
    simp only [List.length_cons]
    rw [show rest.length + 1 + 1 + 1 + 1 - 1 = (L + 1) + 4 by omega, getD_cons4]
  rw [hcrcidx2, hcrcidx1] at h3
  have hcrceq : crc16_ccitt_x25 (blockPrologue ⟨a0, a1, rest.take L⟩ ++ rest.take L)
      = (rest.getD L 0) <<< 8 ||| rest.getD (L + 1) 0 := by
    simpa [t1prime_validate_crc] using h3
  have hsplit : rest.take L ++ [rest.getD L 0, rest.getD (L + 1) 0] = rest := by
    conv_rhs => rw [← List.take_append_drop L rest]
    rw [drop_eq_pair L rest hrest 0]
  have hcrcval : (rest.getD L 0) <<< 8 ||| rest.getD (L + 1) 0
      = rest.getD L 0 * 256 + rest.getD (L + 1) 0 := shl_or_eq _ _ hr1
  simp only [t1prime_block_encode, blockPrologue, hinfolen]
  rw [and_ff00_shr, and_ff]
  rw [show L / 256 % 256 = a2 by omega, show L % 256 = a3 by omega]
  have hcrceq2 : crc16_ccitt_x25 ([a0, a1, a2, a3] ++ List.take L rest)
      = rest.getD L 0 * 256 + rest.getD (L + 1) 0 := by
    rw [← hcrcval, ← hcrceq]
    congr 2
    simp only [blockPrologue, hinfolen]
    rw [and_ff00_shr, and_ff]
    rw [show L / 256 % 256 = a2 by omega, show L % 256 = a3 by omega]
  rw [hcrceq2, and_ff00_shr, and_ff]
  rw [show (rest.getD L 0 * 256 + rest.getD (L + 1) 0) / 256 % 256 = rest.getD L 0 by omega]
  rw [show (rest.getD L 0 * 256 + rest.getD (L + 1) 0) % 256 = rest.getD (L + 1) 0 by omega]
  simp only [List.cons_append, List.nil_append, List.append_assoc]
  rw [hsplit]

theorem take_four_add (a0 a1 a2 a3 : Nat) (rest : List Nat) (L : Nat) :
    (a0 :: a1 :: a2 :: a3 :: rest).take (4 + L) = a0 :: a1 :: a2 :: a3 :: rest.take L := by
  rw [show 4 + L = (((L + 1) + 1) + 1) + 1 by omega]
  simp [List.take_succ_cons]

theorem validate_iff_take (a0 a1 a2 a3 : Nat) (rest : List Nat)
    (ha2 : a2 < 256) (ha3 : a3 < 256)
    (hrest : (a2 <<< 8 ||| a3) + 2 ≤ rest.length) (e : Nat) :
    t1prime_validate_crc ⟨a0, a1, rest.take (a2 <<< 8 ||| a3)⟩ e
      = (crc16_ccitt_x25 ((a0 :: a1 :: a2 :: a3 :: rest).take (4 + (a2 <<< 8 ||| a3))) == e) := by
  have hL : a2 <<< 8 ||| a3 = a2 * 256 + a3 := shl_or_eq a2 a3 ha3
  rw [take_four_add]
  unfold t1prime_validate_crc blockPrologue
  have hlen : (rest.take (a2 <<< 8 ||| a3)).length = a2 <<< 8 ||| a3 := by
    rw [List.length_take]
    omega
  rw [hlen, and_ff00_shr, and_ff]
  rw [show (a2 <<< 8 ||| a3) / 256 % 256 = a2 by omega,
      show (a2 <<< 8 ||| a3) % 256 = a3 by omega]
  rfl

/-- C2: for every well-formed block (information of at most 16-bit LEN size),
decoding the encoding yields the block back; conversely whenever decoding a
byte string succeeds, re-encoding the decoded block reproduces it byte for
byte. -/
theorem claim_C2_block_codec_roundtrip :
    (∀ b : Block, b.information.length < 65536 →
      t1prime_block_decode (t1prime_block_encode b) = .ok b) ∧
    (∀ x : List Nat, (∀ c ∈ x, c < 256) → ∀ b : Block,
      t1prime_block_decode x = .ok b → t1prime_block_encode b = x) :=
  ⟨block_decode_encode, block_encode_decode⟩

set_option maxRecDepth 8192 in
/-- Witness for C2 at concrete blocks and byte strings. -/
theorem claim_C2_witness :
    t1prime_block_decode (t1prime_block_encode ⟨0x21, 0x00, [0x01, 0x02]⟩)
      = .ok ⟨0x21, 0x00, [0x01, 0x02]⟩ ∧
    t1prime_block_encode ⟨0x12, 0x00, [0xf1, 0xf2]⟩
      = [0x12, 0x00, 0x00, 0x02, 0xf1, 0xf2, 185, 156] :=
  ⟨claim_C2_block_codec_roundtrip.1 _ (by decide),
   claim_C2_block_codec_roundtrip.2 [0x12, 0x00, 0x00, 0x02, 0xf1, 0xf2, 185, 156]
     (by decide) _ (by decide)⟩

/-- C3: `t1prime_block_decode` succeeds exactly when the input has at least 6
bytes, its length is 4 + LEN + 2 for the big-endian LEN at offsets 2..3, and
the last two bytes are the big-endian CCITT-X.25 CRC of the first 4 + LEN
bytes; the error is TooLittleData, InformationSizeMismatch (length mismatch)
or InvalidCrc accordingly. -/
theorem claim_C3_block_decode_conditions (x : List Nat) (hx : ∀ c ∈ x, c < 256) :
    (x.length < 6 → t1prime_block_decode x = .error .tooLittleData) ∧
    (6 ≤ x.length → x.length ≠ 4 + blockLEN x + 2 →
      t1prime_block_decode x = .error .informationSizeMismatch) ∧
    (6 ≤ x.length → x.length = 4 + blockLEN x + 2 →
      crc16_ccitt_x25 (x.take (4 + blockLEN x)) ≠ epilogueCRC x →
      t1prime_block_decode x = .error .invalidCrc) ∧
    (6 ≤ x.length → x.length = 4 + blockLEN x + 2 →
      crc16_ccitt_x25 (x.take (4 + blockLEN x)) = epilogueCRC x →
      (t1prime_block_decode x).isOk = true) := by
  refine ⟨fun h6 => ?_, fun h6 hne => ?_, fun h6 heq hcrc => ?_, fun h6 heq hcrc => ?_⟩
  · unfold t1prime_block_decode
    rw [if_pos h6]
  · unfold t1prime_block_decode
    rw [if_neg (by omega), if_pos hne]
  · rcases x with _ | ⟨a0, _ | ⟨a1, _ | ⟨a2, _ | ⟨a3, rest⟩⟩⟩⟩ <;> simp at h6
    have ha2 : a2 < 256 := hx a2 (by simp)
    have ha3 : a3 < 256 := hx a3 (by simp)
    have hblen : blockLEN (a0 :: a1 :: a2 :: a3 :: rest) = a2 <<< 8 ||| a3 := by
      simp [blockLEN]
    rw [hblen] at heq hcrc
    have hrest : (a2 <<< 8 ||| a3) + 2 ≤ rest.length := by
      simp only [List.length_cons] at heq
      omega
    unfold t1prime_block_decode
    rw [if_neg (by omega), hblen, if_neg (by simp only [List.length_cons] at heq ⊢; omega)]
    rw [List.drop_succ_cons, List.drop_succ_cons, List.drop_succ_cons, List.drop_succ_cons,
      List.drop_zero]
    simp only [List.getD_cons_zero, List.getD_cons_succ]
    have hval : t1prime_validate_crc ⟨a0, a1, rest.take (a2 <<< 8 ||| a3)⟩
        (epilogueCRC (a0 :: a1 :: a2 :: a3 :: rest)) = false := by
      rw [validate_iff_take a0 a1 a2 a3 rest ha2 ha3 hrest]
      simpa using hcrc
    rw [hval]
    rfl
  · rcases x with _ | ⟨a0, _ | ⟨a1, _ | ⟨a2, _ | ⟨a3, rest⟩⟩⟩⟩ <;> simp at h6
    have ha2 : a2 < 256 := hx a2 (by simp)
    have ha3 : a3 < 256 := hx a3 (by simp)
    have hblen : blockLEN (a0 :: a1 :: a2 :: a3 :: rest) = a2 <<< 8 ||| a3 := by
      simp [blockLEN]
    rw [hblen] at heq hcrc
    have hrest : (a2 <<< 8 ||| a3) + 2 ≤ rest.length := by
      simp only [List.length_cons] at heq
      omega
    unfold t1prime_block_decode
    rw [if_neg (by omega), hblen, if_neg (by simp only [List.length_cons] at heq ⊢; omega)]
    rw [List.drop_succ_cons, List.drop_succ_cons, List.drop_succ_cons, List.drop_succ_cons,
      List.drop_zero]
    simp only [List.getD_cons_zero, List.getD_cons_succ]
    have hval : t1prime_validate_crc ⟨a0, a1, rest.take (a2 <<< 8 ||| a3)⟩
        (epilogueCRC (a0 :: a1 :: a2 :: a3 :: rest)) = true := by
      rw [validate_iff_take a0 a1 a2 a3 rest ha2 ha3 hrest]
      simpa using hcrc
    rw [hval]
    rfl

set_option maxRecDepth 8192 in
/-- Witness for C3: a concrete valid block and a concrete short input. -/
theorem claim_C3_witness :
    (t1prime_block_decode [0x12, 0x00, 0x00, 0x02, 0xf1, 0xf2, 185, 156]).isOk = true ∧
    t1prime_block_decode [0x12, 0x00] = .error .tooLittleData :=
  ⟨(claim_C3_block_decode_conditions _ (by decide)).2.2.2 (by decide) (by decide) (by decide),
   (claim_C3_block_decode_conditions _ (by decide)).1 (by decide)⟩

/-! ### Claims about construction defaults and the IFS encoding -/

theorem and_0f00_shr (n : Nat) : (n &&& 0x0f00) >>> 8 = n / 256 % 16 := by
  apply Nat.eq_of_testBit_eq
  intro j
  simp only [Nat.testBit_shiftRight, Nat.testBit_and]
  rw [show ((0x0f00 : Nat) = 0x0f <<< 8) from rfl]
  simp only [Nat.testBit_shiftLeft]
  rw [show (n / 256 % 16 = n / 2 ^ 8 % 2 ^ 4) from rfl]
  rw [Nat.testBit_mod_two_pow]
  rw [show (n / 2 ^ 8 = n >>> 8) from (Nat.shiftRight_eq_div_pow n 8).symm]
  simp only [Nat.testBit_shiftRight]
  have h8 : 8 + j - 8 = j := by omega
  rw [h8, show ((0x0f : Nat) = 2 ^ 4 - 1) from rfl, Nat.testBit_two_pow_sub_one]
  have h88 : (8 : Nat) ≤ 8 + j := by omega
  by_cases hj : j < 4 <;> simp [hj, h88, Bool.and_comm]

/-- C9 counterexample: the claim asserts IFSC = 8 immediately after engine
construction, but the lazily initialized state holds
IFSC = `T1PRIME_MAX_IFS` = 0xFF9, not 8. -/
theorem claim_C9_counterexample :
    initialProtocolState.ifsc = 0xff9 ∧ initialProtocolState.ifsc ≠ 0x08 := by
  decide

/-- C9 (amended): the freshly constructed session state holds
BWT = 300 ms, IFSC = `T1PRIME_MAX_IFS` (0xFF9, not 8), both sequence
counters 0 and no pending WTX delay; the IFSC = 8 / BWT = 300 defaults are
installed at the start of every activation (visible here in the state an
activation with no reachable card leaves behind). -/
theorem claim_C9_construction_defaults :
    initialProtocolState.bwt = T1PRIME_DEFAULT_BWT ∧
    initialProtocolState.ifsc = T1PRIME_MAX_IFS ∧
    initialProtocolState.send_counter = 0 ∧
    initialProtocolState.receive_counter = 0 ∧
    initialProtocolState.wtx_delay = 0 ∧
    (t1prime_activate initialProtocolState []).state.ifsc = T1PRIME_DEFAULT_IFSC ∧
    (t1prime_activate initialProtocolState []).state.bwt = T1PRIME_DEFAULT_BWT := by
  decide

/-- C7 counterexample: for 0xFF ≤ n ≤ 0xFF9 the claim asserts a three-byte
encoding `0x00 MSB LSB`; the code produces exactly two bytes. At n = 0x100
the encoding is `[0x01, 0x00]`, of length 2. -/
theorem claim_C7_counterexample :
    t1prime_ifs_encode 0x100 = .ok [0x01, 0x00] ∧
    t1prime_ifs_encode 0x100 ≠ .ok [0x00, 0x01, 0x00] := by
  decide

/-- C7 (amended): `t1prime_ifs_encode n` fails with IllegalArgument iff
n = 0 or n > 0xFF9; for n in [1, 0xFE] it produces the single byte n; for
n in [0xFF, 0xFF9] it produces the two bytes MSB, LSB (no 0x00 prefix); and
`t1prime_set_ifsd` answered by an S(IFS response) succeeds exactly when the
response information decodes to the requested value, failing with
InvalidBlock otherwise. -/
theorem claim_C7_ifs_encode_and_set_ifsd :
    (∀ n : Nat, t1prime_ifs_encode n = .error .illegalArgument ↔ (n = 0 ∨ n > 0xff9)) ∧
    (∀ n : Nat, 1 ≤ n → n ≤ 0xfe → t1prime_ifs_encode n = .ok [n]) ∧
    (∀ n : Nat, 0xff ≤ n → n ≤ 0xff9 → t1prime_ifs_encode n = .ok [n / 256, n % 256]) ∧
    (∀ (st : ProtocolState) (ifsd nad : Nat) (info : List Nat) (rest : List RecvOutcome),
      1 ≤ ifsd → ifsd ≤ 0xff9 → 2 ≤ st.ifsc →
      ((t1prime_set_ifsd st ifsd (.ok ⟨nad, T1PRIME_PCB_S_IFS_RESP, info⟩ :: rest)).status
          = .ok () ↔ t1prime_ifs_decode info = .ok ifsd) ∧
      (t1prime_ifs_decode info ≠ .ok ifsd →
        (t1prime_set_ifsd st ifsd (.ok ⟨nad, T1PRIME_PCB_S_IFS_RESP, info⟩ :: rest)).status
          = .error .invalidBlock)) := by
  refine ⟨?_, ?_, ?_, ?_⟩
  · intro n
    unfold t1prime_ifs_encode T1PRIME_MAX_IFS
    constructor
    · intro h
      by_contra hc
      push_neg at hc
      rw [if_neg (by omega)] at h
      split_ifs at h
    · intro h
      rw [if_pos (by omega)]
  · intro n h1 h2
    unfold t1prime_ifs_encode T1PRIME_MAX_IFS
    rw [if_neg (by omega), if_pos (by omega), and_ff]
    rw [Nat.mod_eq_of_lt (by omega)]
  · intro n h1 h2
    unfold t1prime_ifs_encode T1PRIME_MAX_IFS
    rw [if_neg (by omega), if_neg (by omega), and_0f00_shr, and_ff]
    rw [Nat.mod_eq_of_lt (show n / 256 < 16 by omega)]
  · intro st ifsd nad info rest h1 h2 h3
    obtain ⟨enc, henc, hlen⟩ : ∃ enc, t1prime_ifs_encode ifsd = .ok enc ∧ enc.length ≤ 2 := by
      unfold t1prime_ifs_encode T1PRIME_MAX_IFS
      rw [if_neg (by omega)]
      by_cases hle : ifsd ≤ 0xfe
      · exact ⟨_, by rw [if_pos hle], by simp⟩
      · exact ⟨_, by rw [if_neg hle], by simp⟩
    have hbt : t1prime_block_transceive st ⟨0x21, T1PRIME_PCB_S_IFS_REQ, enc⟩
        (.ok ⟨nad, T1PRIME_PCB_S_IFS_RESP, info⟩ :: rest)
        = ⟨.ok ⟨nad, T1PRIME_PCB_S_IFS_RESP, info⟩, { st with wtx_delay := 0 },
           [⟨0x21, T1PRIME_PCB_S_IFS_REQ, enc⟩], rest⟩ := by
      unfold t1prime_block_transceive
      exact bt_aux_done _ _ _ _ _ _ _ (by simp; omega)
        (iter_sreq_done _ _ _
          (show (T1PRIME_PCB_IS_S T1PRIME_PCB_S_IFS_REQ
              && T1PRIME_PCB_S_IS_REQUEST T1PRIME_PCB_S_IFS_REQ) = true from by decide)
          (show (T1PRIME_PCB_IS_S T1PRIME_PCB_S_IFS_RESP
              && !T1PRIME_PCB_S_IS_REQUEST T1PRIME_PCB_S_IFS_RESP) = true from by decide)
          (show (T1PRIME_PCB_S_GET_TYPE T1PRIME_PCB_S_IFS_REQ
              == T1PRIME_PCB_S_GET_TYPE T1PRIME_PCB_S_IFS_RESP) = true from by decide))
    rcases hd : t1prime_ifs_decode info with e | v
    · simp [t1prime_set_ifsd, henc, hbt, hd]
    · by_cases hv : v = ifsd
      · subst hv
        simp [t1prime_set_ifsd, henc, hbt, hd]
      · simp [t1prime_set_ifsd, henc, hbt, hd, hv, Ne.symm hv]

/-- Witness for C7 at concrete values: a one-byte encoding, a two-byte
encoding, and a successful and a failing `set_ifsd` exchange. -/
theorem claim_C7_witness :
    t1prime_ifs_encode 0x20 = .ok [0x20] ∧
    t1prime_ifs_encode 0x100 = .ok [0x100 / 256, 0x100 % 256] ∧
    (t1prime_set_ifsd initialProtocolState 0x20
      [.ok ⟨0x12, T1PRIME_PCB_S_IFS_RESP, [0x20]⟩]).status = .ok () ∧
    (t1prime_set_ifsd initialProtocolState 0x20
      [.ok ⟨0x12, T1PRIME_PCB_S_IFS_RESP, [0x21]⟩]).status = .error .invalidBlock :=
  ⟨claim_C7_ifs_encode_and_set_ifsd.2.1 0x20 (by decide) (by decide),
   claim_C7_ifs_encode_and_set_ifsd.2.2.1 0x100 (by decide) (by decide),
   (claim_C7_ifs_encode_and_set_ifsd.2.2.2 initialProtocolState 0x20 0x12 [0x20] []
     (by decide) (by decide) (by decide)).1.mpr (by decide),
   (claim_C7_ifs_encode_and_set_ifsd.2.2.2 initialProtocolState 0x20 0x12 [0x21] []
     (by decide) (by decide) (by decide)).2 (by decide)⟩

/-! ### C1: the IFSC bound across activation -/

theorem cip_decode_skeleton (a b c d : Nat) :
    t1prime_cip_decode [0x01, 0x03, 0x00, 0x00, 0x00, 0x02, 0x08, 0, 0, 0, 0, 0, 0x0A, 0, 0,
        0x04, a, b, c, d, 0x00]
      = .ok ⟨0x01, [0x00, 0x00, 0x00], 0x02, [0, 0, 0, 0, 0, 0x0A, 0, 0], [a, b, c, d], []⟩ := rfl

theorem dllp_decode_abcd (a b c d : Nat) :
    t1prime_dllp_decode [a, b, c, d]
      = .ok ⟨((a <<< 8 ||| b) % 65536), ((c <<< 8 ||| d) % 65536)⟩ := rfl

theorem bt_cipreq (st : ProtocolState) (nad2 : Nat) (info2 : List Nat) (rest : List RecvOutcome) :
    t1prime_block_transceive st ⟨0x21, 0xC4, []⟩
      (.ok ⟨nad2, 0xE4, info2⟩ :: rest)
      = ⟨.ok ⟨nad2, 0xE4, info2⟩, { st with wtx_delay := 0 },
         [⟨0x21, 0xC4, []⟩], rest⟩ := by
  unfold t1prime_block_transceive
  exact bt_aux_done _ _ _ _ _ _ _ (by simp)
    (iter_sreq_done _ _ _
      (show (T1PRIME_PCB_IS_S 0xC4 && T1PRIME_PCB_S_IS_REQUEST 0xC4) = true from by decide)
      (show (T1PRIME_PCB_IS_S 0xE4 && !T1PRIME_PCB_S_IS_REQUEST 0xE4) = true from by decide)
      (show (T1PRIME_PCB_S_GET_TYPE 0xC4 == T1PRIME_PCB_S_GET_TYPE 0xE4) = true from by decide))

theorem bt_resynchreq (st : ProtocolState) (nad2 : Nat) (info2 : List Nat)
    (rest : List RecvOutcome) :
    t1prime_block_transceive st ⟨0x21, 0xC0, []⟩
      (.ok ⟨nad2, 0xE0, info2⟩ :: rest)
      = ⟨.ok ⟨nad2, 0xE0, info2⟩, { st with wtx_delay := 0 },
         [⟨0x21, 0xC0, []⟩], rest⟩ := by
  unfold t1prime_block_transceive
  exact bt_aux_done _ _ _ _ _ _ _ (by simp)
    (iter_sreq_done _ _ _
      (show (T1PRIME_PCB_IS_S 0xC0 && T1PRIME_PCB_S_IS_REQUEST 0xC0) = true from by decide)
      (show (T1PRIME_PCB_IS_S 0xE0 && !T1PRIME_PCB_S_IS_REQUEST 0xE0) = true from by decide)
      (show (T1PRIME_PCB_S_GET_TYPE 0xC0 == T1PRIME_PCB_S_GET_TYPE 0xE0) = true from by decide))

/-- C1 counterexample: a successful activation that parses a CIP whose DLLP
advertises IFSC = 0xFFFF leaves the session state with IFSC = 0xFFFF,
above 0xFF9 — the activation path applies the decoded DLLP IFSC without
the ≤ 0xFF9 validation. -/
theorem claim_C1_counterexample :
    (t1prime_activate initialProtocolState
      [.ok ⟨0x12, 0xE4, [0x01, 0x03, 0x00, 0x00, 0x00, 0x02, 0x08, 0, 0, 0, 0, 0, 0x0A, 0, 0,
        0x04, 0x00, 0xC8, 0xFF, 0xFF, 0x00]⟩, .ok ⟨0x12, 0xE0, []⟩]).status = .ok () ∧
    T1PRIME_MAX_IFS <
      (t1prime_activate initialProtocolState
        [.ok ⟨0x12, 0xE4, [0x01, 0x03, 0x00, 0x00, 0x00, 0x02, 0x08, 0, 0, 0, 0, 0, 0x0A, 0, 0,
          0x04, 0x00, 0xC8, 0xFF, 0xFF, 0x00]⟩, .ok ⟨0x12, 0xE0, []⟩]).state.ifsc := by
  decide

/-- C1 (amended): the `t1prime_ifs_decode`/`t1prime_ifs_encode` paths enforce
IFS ≤ 0xFF9, but a successful activation adopts the DLLP-advertised IFSC
verbatim: for any 4-byte DLLP `a b c d` inside a well-formed CIP, the
post-activation state holds IFSC = c·256 + d (and BWT = a·256 + b), with no
upper-bound check. -/
theorem claim_C1_activation_adopts_dllp_ifsc (st : ProtocolState) (a b c d : Nat)
    (ha : a < 256) (hb : b < 256) (hc : c < 256) (hd : d < 256) (rest : List RecvOutcome) :
    (t1prime_activate st (.ok ⟨0x12, 0xE4,
        [0x01, 0x03, 0x00, 0x00, 0x00, 0x02, 0x08, 0, 0, 0, 0, 0, 0x0A, 0, 0,
         0x04, a, b, c, d, 0x00]⟩ ::
      .ok ⟨0x12, 0xE0, []⟩ :: rest)).status = .ok () ∧
    (t1prime_activate st (.ok ⟨0x12, 0xE4,
        [0x01, 0x03, 0x00, 0x00, 0x00, 0x02, 0x08, 0, 0, 0, 0, 0, 0x0A, 0, 0,
         0x04, a, b, c, d, 0x00]⟩ ::
      .ok ⟨0x12, 0xE0, []⟩ :: rest)).state.ifsc = c * 256 + d ∧
    (t1prime_activate st (.ok ⟨0x12, 0xE4,
        [0x01, 0x03, 0x00, 0x00, 0x00, 0x02, 0x08, 0, 0, 0, 0, 0, 0x0A, 0, 0,
         0x04, a, b, c, d, 0x00]⟩ ::
      .ok ⟨0x12, 0xE0, []⟩ :: rest)).state.bwt = a * 256 + b := by
  have hifsc : (c <<< 8 ||| d) % 65536 = c * 256 + d := by
    rw [shl_or_eq c d hd]
    exact Nat.mod_eq_of_lt (by omega)
  have hbwt : (a <<< 8 ||| b) % 65536 = a * 256 + b := by
    rw [shl_or_eq a b hb]
    exact Nat.mod_eq_of_lt (by omega)
  have key : t1prime_activate st (.ok ⟨0x12, 0xE4,
        [0x01, 0x03, 0x00, 0x00, 0x00, 0x02, 0x08, 0, 0, 0, 0, 0, 0x0A, 0, 0,
         0x04, a, b, c, d, 0x00]⟩ ::
      .ok ⟨0x12, 0xE0, []⟩ :: rest)
      = ⟨.ok (),
         { st with bwt := a * 256 + b, ifsc := c * 256 + d, mpot := 0x0A,
                   send_counter := 0, receive_counter := 0, wtx_delay := 0 },
         [⟨0x21, 0xC4, []⟩, ⟨0x21, 0xC0, []⟩], rest⟩ := by
    conv_lhs => rw [t1prime_activate]
    rw [show (Block.mk NAD_HD_TO_SE T1PRIME_PCB_S_CIP_REQ [])
          = Block.mk 0x21 0xC4 [] from rfl,
        bt_cipreq]
    dsimp only
    rw [if_neg (show ¬ ((0xE4 : Nat) ≠ T1PRIME_PCB_S_CIP_RESP) from by decide),
        cip_decode_skeleton]
    dsimp only
    rw [dllp_decode_abcd]
    dsimp only
    rw [if_pos (show (0x02 : Nat) = PLID_I2C from by decide),
        show t1prime_i2c_plp_decode [0, 0, 0, 0, 0, 0x0A, 0, 0]
          = .ok ⟨0, 0, 0, 0, 0x0A, 0⟩ from rfl]
    dsimp only
    rw [show (Block.mk NAD_HD_TO_SE T1PRIME_PCB_S_RESYNCH_REQ [])
          = Block.mk 0x21 0xC0 [] from rfl,
        bt_resynchreq]
    dsimp only
    rw [if_neg (show ¬ ((0xE0 : Nat) ≠ T1PRIME_PCB_S_RESYNCH_RESP) from by decide)]
    rw [hifsc, hbwt]
    rfl
  exact ⟨by rw [key], by rw [key], by rw [key]⟩

/-- Witness for C1 (amended) at a concrete DLLP advertising IFSC 0x1234. -/
theorem claim_C1_witness :
    (t1prime_activate initialProtocolState (.ok ⟨0x12, 0xE4,
        [0x01, 0x03, 0x00, 0x00, 0x00, 0x02, 0x08, 0, 0, 0, 0, 0, 0x0A, 0, 0,
         0x04, 0x00, 0xC8, 0x12, 0x34, 0x00]⟩ ::
      .ok ⟨0x12, 0xE0, []⟩ :: [])).status = .ok () ∧
    (t1prime_activate initialProtocolState (.ok ⟨0x12, 0xE4,
        [0x01, 0x03, 0x00, 0x00, 0x00, 0x02, 0x08, 0, 0, 0, 0, 0, 0x0A, 0, 0,
         0x04, 0x00, 0xC8, 0x12, 0x34, 0x00]⟩ ::
      .ok ⟨0x12, 0xE0, []⟩ :: [])).state.ifsc = 0x12 * 256 + 0x34 :=
  ⟨(claim_C1_activation_adopts_dllp_ifsc initialProtocolState 0x00 0xC8 0x12 0x34
      (by decide) (by decide) (by decide) (by decide) []).1,
   (claim_C1_activation_adopts_dllp_ifsc initialProtocolState 0x00 0xC8 0x12 0x34
      (by decide) (by decide) (by decide) (by decide) []).2.1⟩

theorem iter_of_failure (st : ProtocolState) (orig : Block) (o : RecvOutcome)
    (h : isFailureOutcome orig o = true) :
    (∃ e, t1prime_block_transceive_iter st orig o = .retry e) ∨
    t1prime_block_transceive_iter st orig o = .done (.error .invalidBlock) := by
  rcases o with e | rb
  · exact Or.inl ⟨e, rfl⟩
  · unfold isFailureOutcome at h
    unfold t1prime_block_transceive_iter
    dsimp only at h ⊢
    by_cases h1 : (T1PRIME_PCB_IS_S orig.pcb && T1PRIME_PCB_S_IS_REQUEST orig.pcb) = true
    · rw [if_pos h1]
      by_cases h2 : (T1PRIME_PCB_IS_S rb.pcb && !T1PRIME_PCB_S_IS_REQUEST rb.pcb) = true
      · rw [if_pos h2]
        by_cases h3 : (T1PRIME_PCB_S_GET_TYPE orig.pcb == T1PRIME_PCB_S_GET_TYPE rb.pcb) = true
        · simp [h1, h2, h3] at h
        · rw [if_neg h3]
          exact Or.inl ⟨_, rfl⟩
      · rw [if_neg h2]
        by_cases h4 : T1PRIME_PCB_IS_R rb.pcb = true
        · rw [if_pos h4]
          by_cases h5 : T1PRIME_PCB_R_GET_NR rb.pcb ≠ st.send_counter
          · rw [if_pos h5]; exact Or.inr rfl
          · rw [if_neg h5]; exact Or.inl ⟨_, rfl⟩
        · rw [if_neg h4]
          by_cases h6 : T1PRIME_PCB_IS_I rb.pcb = true
          · rw [if_pos h6]; exact Or.inr rfl
          · rw [if_neg h6]; exact Or.inl ⟨_, rfl⟩
    · simp [h1] at h

theorem bt_aux_sent_le (orig : Block) :
    ∀ (tries : Nat) (st : ProtocolState) (cur : Block) (outs : List RecvOutcome),
    (t1prime_block_transceive_aux tries st orig cur outs).sent.length ≤ tries + 1 := by
  intro tries
  induction tries with
  | zero =>
    intro st cur outs
    unfold t1prime_block_transceive_aux
    dsimp only
    split
    · simp
    · split <;> simp
  | succ t ih =>
    intro st cur outs
    unfold t1prime_block_transceive_aux
    dsimp only
    split
    · simp
    · split
      · simp
      · simp only [List.length_cons]
        exact Nat.succ_le_succ (ih { st with wtx_delay := 0 } _ _)

theorem bt_aux_sent_fixed (orig : Block) :
    ∀ (tries : Nat) (st : ProtocolState) (cur : Block) (outs : List RecvOutcome),
    ((T1PRIME_PCB_IS_S orig.pcb && T1PRIME_PCB_S_IS_REQUEST orig.pcb) = false →
      cur = ⟨0x21, T1PRIME_PCB_R_CRC st.receive_counter, []⟩) →
    ∀ blk ∈ (t1prime_block_transceive_aux tries st orig cur outs).sent, blk = cur := by
  intro tries
  induction tries with
  | zero =>
    intro st cur outs hcur
    unfold t1prime_block_transceive_aux
    dsimp only
    split
    · simp
    · split <;> simp
  | succ t ih =>
    intro st cur outs hcur
    unfold t1prime_block_transceive_aux
    dsimp only
    split
    · simp
    · split
      · simp
      · intro blk hblk
        simp only [List.mem_cons] at hblk
        rcases hblk with h | h
        · exact h
        · by_cases hs : (T1PRIME_PCB_IS_S orig.pcb && T1PRIME_PCB_S_IS_REQUEST orig.pcb) = true
          · have := ih { st with wtx_delay := 0 } cur outs.tail
              (fun hf => absurd hs (by simp [hf]))
            simp only [if_pos hs] at h
            exact this blk h
          · have hs' : (T1PRIME_PCB_IS_S orig.pcb && T1PRIME_PCB_S_IS_REQUEST orig.pcb) = false :=
              by simpa using hs
            have := ih { st with wtx_delay := 0 }
              ⟨0x21, T1PRIME_PCB_R_CRC ({ st with wtx_delay := 0 }).receive_counter, []⟩ outs.tail
              (fun _ => rfl)
            simp only [if_neg hs] at h
            rw [this blk h, hcur hs']

theorem bt_aux_fail (orig : Block) :
    ∀ (tries : Nat) (st : ProtocolState) (cur : Block) (outs : List RecvOutcome),
    (∀ o ∈ outs, isFailureOutcome orig o = true) →
    ∃ e, (t1prime_block_transceive_aux tries st orig cur outs).status = .error e := by
  intro tries
  induction tries with
  | zero =>
    intro st cur outs hfail
    unfold t1prime_block_transceive_aux
    dsimp only
    split
    · exact ⟨.illegalArgument, rfl⟩
    · rcases outs with _ | ⟨o, tail⟩
      · dsimp only [t1prime_block_transceive_iter]
        exact ⟨.tooLittleData, rfl⟩
      · rcases iter_of_failure { st with wtx_delay := 0 } orig o (hfail o (by simp)) with ⟨e, he⟩ | he
        · rw [show (match (o :: tail : List RecvOutcome) with
                | [] => (Except.error T1Err.tooLittleData : RecvOutcome)
                | o :: _ => o) = o from rfl, he]
          exact ⟨e, rfl⟩
        · rw [show (match (o :: tail : List RecvOutcome) with
                | [] => (Except.error T1Err.tooLittleData : RecvOutcome)
                | o :: _ => o) = o from rfl, he]
          exact ⟨.invalidBlock, rfl⟩
  | succ t ih =>
    intro st cur outs hfail
    unfold t1prime_block_transceive_aux
    dsimp only
    split
    · exact ⟨.illegalArgument, rfl⟩
    · rcases outs with _ | ⟨o, tail⟩
      · dsimp only [t1prime_block_transceive_iter]
        exact ih _ _ _ (fun o' ho' => absurd ho' (List.not_mem_nil o'))
      · rcases iter_of_failure { st with wtx_delay := 0 } orig o (hfail o (by simp)) with ⟨e, he⟩ | he
        · rw [show (match (o :: tail : List RecvOutcome) with
                | [] => (Except.error T1Err.tooLittleData : RecvOutcome)
                | o :: _ => o) = o from rfl, he]
          exact ih _ _ _ (fun o' ho' => hfail o' (List.mem_cons_of_mem o ho'))
        · rw [show (match (o :: tail : List RecvOutcome) with
                | [] => (Except.error T1Err.tooLittleData : RecvOutcome)
                | o :: _ => o) = o from rfl, he]
          exact ⟨.invalidBlock, rfl⟩

theorem bt_sent_tail (st : ProtocolState) (b : Block) (outs : List RecvOutcome) :
    ∀ blk ∈ (t1prime_block_transceive st b outs).sent.tail,
      blk = if T1PRIME_PCB_IS_S b.pcb && T1PRIME_PCB_S_IS_REQUEST b.pcb then b
            else ⟨0x21, T1PRIME_PCB_R_CRC st.receive_counter, []⟩ := by
  unfold t1prime_block_transceive T1PRIME_BLOCK_TRANSCEIVE_RETRIES
  unfold t1prime_block_transceive_aux
  dsimp only
  split
  · simp
  · split
    · simp
    · intro blk hblk
      dsimp only [List.tail_cons] at hblk
      by_cases hs : (T1PRIME_PCB_IS_S b.pcb && T1PRIME_PCB_S_IS_REQUEST b.pcb) = true
      · rw [if_pos hs]
        rw [if_pos hs] at hblk
        exact bt_aux_sent_fixed b 1 { st with wtx_delay := 0 } _ _
          (fun hf => absurd hs (by simp [hf])) blk hblk
      · have hs' : (T1PRIME_PCB_IS_S b.pcb && T1PRIME_PCB_S_IS_REQUEST b.pcb) = false := by
          simpa using hs
        rw [if_neg hs]
        rw [if_neg hs] at hblk
        exact bt_aux_sent_fixed b 1 { st with wtx_delay := 0 } _ _ (fun _ => rfl) blk hblk

theorem bt_three_errors (st : ProtocolState) (b : Block) (e1 e2 e3 : T1Err)
    (rest : List RecvOutcome) (h : b.information.length ≤ st.ifsc) :
    (t1prime_block_transceive st b (.error e1 :: .error e2 :: .error e3 :: rest)).status
      = .error e3 ∧
    (t1prime_block_transceive st b (.error e1 :: .error e2 :: .error e3 :: rest)).sent.length
      = 3 := by
  have hh : ¬ (b.information.length > st.ifsc) := by omega
  by_cases hs : (T1PRIME_PCB_IS_S b.pcb && T1PRIME_PCB_S_IS_REQUEST b.pcb) = true
  · constructor <;>
      simp [t1prime_block_transceive, t1prime_block_transceive_aux,
        T1PRIME_BLOCK_TRANSCEIVE_RETRIES, t1prime_block_transceive_iter, hs, hh]
  · constructor <;>
      simp [t1prime_block_transceive, t1prime_block_transceive_aux,
        T1PRIME_BLOCK_TRANSCEIVE_RETRIES, t1prime_block_transceive_iter, hs, hh]

/-- C4: `t1prime_block_transceive` performs at most 3 transmission attempts
(the original plus 2 retries); every retried block is
`R(crc_error, N(R) = receive counter)` with empty information, except when
the original block is a request S-block, which is re-sent identically; if
every reception fails or is inconsistent with the sent block the call
surfaces an error, and with three straight reception errors it performs
exactly 3 attempts and surfaces the last error. -/
theorem claim_C4_block_transceive_retry_discipline :
    (∀ (st : ProtocolState) (b : Block) (outs : List RecvOutcome),
      (t1prime_block_transceive st b outs).sent.length ≤ 3) ∧
    (∀ (st : ProtocolState) (b : Block) (outs : List RecvOutcome),
      ∀ blk ∈ (t1prime_block_transceive st b outs).sent.tail,
        blk = if T1PRIME_PCB_IS_S b.pcb && T1PRIME_PCB_S_IS_REQUEST b.pcb then b
              else ⟨0x21, T1PRIME_PCB_R_CRC st.receive_counter, []⟩) ∧
    (∀ (st : ProtocolState) (b : Block) (outs : List RecvOutcome),
      (∀ o ∈ outs, isFailureOutcome b o = true) →
      ∃ e, (t1prime_block_transceive st b outs).status = .error e) ∧
    (∀ (st : ProtocolState) (b : Block) (e1 e2 e3 : T1Err) (rest : List RecvOutcome),
      b.information.length ≤ st.ifsc →
      (t1prime_block_transceive st b (.error e1 :: .error e2 :: .error e3 :: rest)).status
        = .error e3 ∧
      (t1prime_block_transceive st b
        (.error e1 :: .error e2 :: .error e3 :: rest)).sent.length = 3) :=
  ⟨fun st b outs => bt_aux_sent_le b T1PRIME_BLOCK_TRANSCEIVE_RETRIES st b outs,
   bt_sent_tail,
   fun st b outs h => bt_aux_fail b T1PRIME_BLOCK_TRANSCEIVE_RETRIES st b outs h,
   fun st b e1 e2 e3 rest h => bt_three_errors st b e1 e2 e3 rest h⟩

/-- Witness for C4: an I-block met by three CRC errors is retried twice with
`R(crc_error, N(R)=0)` and the call surfaces the last error. -/
theorem claim_C4_witness :
    (∀ blk ∈ (t1prime_block_transceive initialProtocolState ⟨0x21, 0x00, [0x01]⟩
        [.error .invalidCrc, .error .tooLittleData, .error .invalidCrc]).sent.tail,
      blk = if T1PRIME_PCB_IS_S (0x00 : Nat) && T1PRIME_PCB_S_IS_REQUEST (0x00 : Nat)
            then ⟨0x21, 0x00, [0x01]⟩
            else ⟨0x21, T1PRIME_PCB_R_CRC initialProtocolState.receive_counter, []⟩) ∧
    (∃ e, (t1prime_block_transceive initialProtocolState ⟨0x21, 0x00, [0x01]⟩
        [.error .invalidCrc, .error .tooLittleData, .error .invalidCrc]).status = .error e) ∧
    (t1prime_block_transceive initialProtocolState ⟨0x21, 0x00, [0x01]⟩
        [.error .invalidCrc, .error .tooLittleData, .error .invalidCrc]).status
      = .error .invalidCrc ∧
    (t1prime_block_transceive initialProtocolState ⟨0x21, 0x00, [0x01]⟩
        [.error .invalidCrc, .error .tooLittleData, .error .invalidCrc]).sent.length = 3 :=
  ⟨claim_C4_block_transceive_retry_discipline.2.1 initialProtocolState ⟨0x21, 0x00, [0x01]⟩
      [.error .invalidCrc, .error .tooLittleData, .error .invalidCrc],
   claim_C4_block_transceive_retry_discipline.2.2.1 initialProtocolState ⟨0x21, 0x00, [0x01]⟩
      [.error .invalidCrc, .error .tooLittleData, .error .invalidCrc] (by decide),
   (claim_C4_block_transceive_retry_discipline.2.2.2 initialProtocolState ⟨0x21, 0x00, [0x01]⟩
      .invalidCrc .tooLittleData .invalidCrc [] (by decide)).1,
   (claim_C4_block_transceive_retry_discipline.2.2.2 initialProtocolState ⟨0x21, 0x00, [0x01]⟩
      .invalidCrc .tooLittleData .invalidCrc [] (by decide)).2⟩

theorem bt_non_sreq_ok (st : ProtocolState) (txPcb : Nat) (txInfo : List Nat) (rb : Block)
    (rest : List RecvOutcome)
    (hs : (T1PRIME_PCB_IS_S txPcb && T1PRIME_PCB_S_IS_REQUEST txPcb) = false)
    (hlen : txInfo.length ≤ st.ifsc) :
    t1prime_block_transceive st ⟨0x21, txPcb, txInfo⟩ (.ok rb :: rest)
      = ⟨.ok rb, { st with wtx_delay := 0 }, [⟨0x21, txPcb, txInfo⟩], rest⟩ := by
  unfold t1prime_block_transceive
  exact bt_aux_done _ _ _ _ _ _ _ (by simp only [Block.information]; omega)
    (iter_non_sreq _ _ _ hs)

/-- C5 counterexample: Case 3 trace (6-byte request, IFSC = 6, card shrinks
to 2 via S(IFS request) and asks a retransmission). The engine clamps only
the outstanding chunk: the retransmission carries 2 bytes, but the next
I-block carries the remaining 4 bytes in one block, and the session IFSC is
still 6 after the call — the claim's "every I-block sent afterwards carries
at most v bytes" and "adopts v as the new session IFSC" both fail. -/
theorem claim_C5_counterexample :
    (t1prime_transceive { initialProtocolState with ifsc := 6 } [1, 2, 3, 4, 5, 6]
      [.ok ⟨0x12, 0xC1, [0x02]⟩, .ok ⟨0x12, 0x80, []⟩, .ok ⟨0x12, 0x90, []⟩,
       .ok ⟨0x12, 0x00, [0xf5, 0xf6]⟩]).status = .ok [0xf5, 0xf6] ∧
    (t1prime_transceive { initialProtocolState with ifsc := 6 } [1, 2, 3, 4, 5, 6]
      [.ok ⟨0x12, 0xC1, [0x02]⟩, .ok ⟨0x12, 0x80, []⟩, .ok ⟨0x12, 0x90, []⟩,
       .ok ⟨0x12, 0x00, [0xf5, 0xf6]⟩]).sent
      = [⟨0x21, 0x00, [1, 2, 3, 4, 5, 6]⟩, ⟨0x21, 0xE1, [0x02]⟩,
         ⟨0x21, 0x20, [1, 2]⟩, ⟨0x21, 0x40, [3, 4, 5, 6]⟩] ∧
    ((t1prime_transceive { initialProtocolState with ifsc := 6 } [1, 2, 3, 4, 5, 6]
      [.ok ⟨0x12, 0xC1, [0x02]⟩, .ok ⟨0x12, 0x80, []⟩, .ok ⟨0x12, 0x90, []⟩,
       .ok ⟨0x12, 0x00, [0xf5, 0xf6]⟩]).sent.getD 3 ⟨0, 0, []⟩).information.length = 4 ∧
    (t1prime_transceive { initialProtocolState with ifsc := 6 } [1, 2, 3, 4, 5, 6]
      [.ok ⟨0x12, 0xC1, [0x02]⟩, .ok ⟨0x12, 0x80, []⟩, .ok ⟨0x12, 0x90, []⟩,
       .ok ⟨0x12, 0x00, [0xf5, 0xf6]⟩]).state.ifsc = 6 := by
  decide

/-- C5 (amended): an `S(IFS request)` arriving in the send chain whose
information decodes to `v` is answered by `S(IFS response)` echoing the same
information; only the size of the outstanding chunk is clamped to
`min v lastSize`; the session IFSC is left unchanged, so later chunks are
again bounded by the pre-call IFSC. -/
theorem claim_C5_ifs_request_clamps_current_chunk
    (fuel : Nat) (st : ProtocolState) (data : List Nat)
    (offset remaining lastSize txPcb : Nat) (txInfo : List Nat) (aborted : Bool)
    (nad v : Nat) (info : List Nat) (rest : List RecvOutcome)
    (hs : (T1PRIME_PCB_IS_S txPcb && T1PRIME_PCB_S_IS_REQUEST txPcb) = false)
    (hlen : txInfo.length ≤ st.ifsc)
    (hv : t1prime_ifs_decode info = .ok v) :
    sendLoopAux (fuel + 1) st data offset remaining lastSize txPcb txInfo aborted
      (.ok ⟨nad, T1PRIME_PCB_S_IFS_REQ, info⟩ :: rest)
    = (let s := sendLoopAux fuel { st with wtx_delay := 0 } data offset remaining
          (min v lastSize) T1PRIME_PCB_S_IFS_RESP info aborted rest
       ⟨s.status, s.state, ⟨0x21, txPcb, txInfo⟩ :: s.sent, s.rest⟩) := by
  simp only [sendLoopAux]
  rw [bt_non_sreq_ok st txPcb txInfo ⟨nad, T1PRIME_PCB_S_IFS_REQ, info⟩ rest hs hlen]
  simp [hv,
    show T1PRIME_PCB_IS_I T1PRIME_PCB_S_IFS_REQ = false from by decide,
    show T1PRIME_PCB_IS_R T1PRIME_PCB_S_IFS_REQ = false from by decide,
    show (T1PRIME_PCB_S_IFS_REQ == T1PRIME_PCB_S_WTX_REQ) = false from by decide]

theorem claim_C5_witness :
    sendLoopAux 1 initialProtocolState [] 0 0 5 0 [] false
      [.ok ⟨0x12, T1PRIME_PCB_S_IFS_REQ, [0x02]⟩]
    = (let s := sendLoopAux 0 { initialProtocolState with wtx_delay := 0 } [] 0 0
          (min 2 5) T1PRIME_PCB_S_IFS_RESP [0x02] false []
       ⟨s.status, s.state, ⟨0x21, 0, []⟩ :: s.sent, s.rest⟩) :=
  claim_C5_ifs_request_clamps_current_chunk 0 initialProtocolState [] 0 0 5 0 [] false
    0x12 2 [0x02] [] (by decide) (by decide) (by decide)

/-- C6 (code bug): in the receive direction, an R-block whose `N(R)` differs
from the current send counter does NOT make the call fail with InvalidBlock.
The engine silently discards the response bytes accumulated so far (the
missing `return` after the cleanup in the wrong-`N(R)` branch) and continues
the receive chain with `R(ack)`: here the accumulated `[0xf1, 0xf2]` is
dropped and the call succeeds with only the later chunk `[0xf3, 0xf4]`. -/
theorem claim_C6_wrong_nr_r_block_continues_receive :
    (t1prime_transceive initialProtocolState [1, 2]
      [.ok ⟨0x12, 0x20, [0xf1, 0xf2]⟩, .ok ⟨0x12, 0x80, []⟩,
       .ok ⟨0x12, 0x40, [0xf3, 0xf4]⟩]).status = .ok [0xf3, 0xf4] ∧
    (t1prime_transceive initialProtocolState [1, 2]
      [.ok ⟨0x12, 0x20, [0xf1, 0xf2]⟩, .ok ⟨0x12, 0x80, []⟩,
       .ok ⟨0x12, 0x40, [0xf3, 0xf4]⟩]).sent
      = [⟨0x21, 0x00, [1, 2]⟩, ⟨0x21, 0x90, []⟩, ⟨0x21, 0x90, []⟩] := by
  decide

/-- C8: an `S(ABORT request)` answering a block of the outgoing chain is
acknowledged with `S(ABORT response)` and the call fails with
`TransceiveAborted`; the session counters are untouched (the resulting state
only has its WTX delay cleared). The concrete conjuncts run the Case 5
scenario: the abort answers the first I-block of a two-chunk chain and the
send and receive counters after the failed call equal the initial ones. -/
theorem claim_C8_abort_request_in_send_chain
    (fuel : Nat) (st : ProtocolState) (data : List Nat)
    (offset remaining lastSize txPcb : Nat) (txInfo : List Nat)
    (rest : List RecvOutcome)
    (hs : (T1PRIME_PCB_IS_S txPcb && T1PRIME_PCB_S_IS_REQUEST txPcb) = false)
    (hlen : txInfo.length ≤ st.ifsc)
    (hsc : st.send_counter = 0 ∨ st.send_counter = 1) :
    sendLoopAux (fuel + 2) st data offset remaining lastSize txPcb txInfo false
      (.ok ⟨0x12, T1PRIME_PCB_S_ABORT_REQ, []⟩ ::
       .ok ⟨0x12, T1PRIME_PCB_R_ACK (st.send_counter ^^^ 0x01), []⟩ :: rest)
    = ⟨.error .transceiveAborted, { st with wtx_delay := 0 },
       [⟨0x21, txPcb, txInfo⟩, ⟨0x21, T1PRIME_PCB_S_ABORT_RESP, []⟩], rest⟩ ∧
    (t1prime_transceive { initialProtocolState with ifsc := 2 } [1, 2, 3, 4]
        [.ok ⟨0x12, 0xC2, []⟩, .ok ⟨0x12, 0x90, []⟩]).status
      = .error .transceiveAborted ∧
    (t1prime_transceive { initialProtocolState with ifsc := 2 } [1, 2, 3, 4]
        [.ok ⟨0x12, 0xC2, []⟩, .ok ⟨0x12, 0x90, []⟩]).sent
      = [⟨0x21, 0x20, [1, 2]⟩, ⟨0x21, 0xE2, []⟩] ∧
    (t1prime_transceive { initialProtocolState with ifsc := 2 } [1, 2, 3, 4]
        [.ok ⟨0x12, 0xC2, []⟩, .ok ⟨0x12, 0x90, []⟩]).state.send_counter
      = initialProtocolState.send_counter ∧
    (t1prime_transceive { initialProtocolState with ifsc := 2 } [1, 2, 3, 4]
        [.ok ⟨0x12, 0xC2, []⟩, .ok ⟨0x12, 0x90, []⟩]).state.receive_counter
      = initialProtocolState.receive_counter := by
  refine ⟨?_, by decide, by decide, by decide, by decide⟩
  have h2 : sendLoopAux (fuel + 1) { st with wtx_delay := 0 } data offset remaining
      lastSize T1PRIME_PCB_S_ABORT_RESP [] true
      (.ok ⟨0x12, T1PRIME_PCB_R_ACK (st.send_counter ^^^ 0x01), []⟩ :: rest)
      = ⟨.error .transceiveAborted, { st with wtx_delay := 0 },
         [⟨0x21, T1PRIME_PCB_S_ABORT_RESP, []⟩], rest⟩ := by
    simp only [sendLoopAux]
    rw [bt_non_sreq_ok _ _ _ _ _ (by decide) (Nat.zero_le _)]
    rcases hsc with h | h <;>
      simp [h, show T1PRIME_PCB_R_ACK 1 = 0x90 from by decide,
        show T1PRIME_PCB_R_ACK 0 = 0x80 from by decide,
        show T1PRIME_PCB_IS_I 0x90 = false from by decide,
        show T1PRIME_PCB_IS_I 0x80 = false from by decide,
        show T1PRIME_PCB_IS_R 0x90 = true from by decide,
        show T1PRIME_PCB_IS_R 0x80 = true from by decide,
        show T1PRIME_PCB_R_GET_NR 0x90 = 1 from by decide,
        show T1PRIME_PCB_R_GET_NR 0x80 = 0 from by decide,
        show ((0 : Nat) ^^^ 1) = 1 from by decide,
        show ((1 : Nat) ^^^ 1) = 0 from by decide]
  conv_lhs => rw [sendLoopAux]
  rw [bt_non_sreq_ok st txPcb txInfo _ _ hs hlen]
  simp only [h2, show T1PRIME_PCB_IS_I T1PRIME_PCB_S_ABORT_REQ = false from by decide,
    show T1PRIME_PCB_IS_R T1PRIME_PCB_S_ABORT_REQ = false from by decide,
    show (T1PRIME_PCB_S_ABORT_REQ == T1PRIME_PCB_S_WTX_REQ) = false from by decide,
    show (T1PRIME_PCB_S_ABORT_REQ == T1PRIME_PCB_S_IFS_REQ) = false from by decide,
    Bool.false_eq_true, if_false, beq_self_eq_true, if_true, List.singleton_append]

theorem claim_C8_witness :
    sendLoopAux 2 initialProtocolState [] 0 0 0 0 [] false
      [.ok ⟨0x12, T1PRIME_PCB_S_ABORT_REQ, []⟩,
       .ok ⟨0x12, T1PRIME_PCB_R_ACK (initialProtocolState.send_counter ^^^ 0x01), []⟩]
    = ⟨.error .transceiveAborted, { initialProtocolState with wtx_delay := 0 },
       [⟨0x21, 0, []⟩, ⟨0x21, T1PRIME_PCB_S_ABORT_RESP, []⟩], []⟩ ∧
    (t1prime_transceive { initialProtocolState with ifsc := 2 } [1, 2, 3, 4]
        [.ok ⟨0x12, 0xC2, []⟩, .ok ⟨0x12, 0x90, []⟩]).status
      = .error .transceiveAborted ∧
    (t1prime_transceive { initialProtocolState with ifsc := 2 } [1, 2, 3, 4]
        [.ok ⟨0x12, 0xC2, []⟩, .ok ⟨0x12, 0x90, []⟩]).sent
      = [⟨0x21, 0x20, [1, 2]⟩, ⟨0x21, 0xE2, []⟩] ∧
    (t1prime_transceive { initialProtocolState with ifsc := 2 } [1, 2, 3, 4]
        [.ok ⟨0x12, 0xC2, []⟩, .ok ⟨0x12, 0x90, []⟩]).state.send_counter
      = initialProtocolState.send_counter ∧
    (t1prime_transceive { initialProtocolState with ifsc := 2 } [1, 2, 3, 4]
        [.ok ⟨0x12, 0xC2, []⟩, .ok ⟨0x12, 0x90, []⟩]).state.receive_counter
      = initialProtocolState.receive_counter :=
  claim_C8_abort_request_in_send_chain 0 initialProtocolState [] 0 0 0 0 [] []
    (by decide) (by decide) (Or.inl rfl)

/-- C10: in the receive chain, an I-block with matching `N(S)` and an empty
information field is rejected with `InvalidBlock` while the response
accumulator is still unset (the first response I-block must carry data), and
is accepted as a pure acknowledgement — returning the bytes accumulated so
far and only toggling the receive counter — once a non-empty response chunk
has been accumulated. -/
theorem claim_C10_zero_length_response_i_block
    (fuel : Nat) (st : ProtocolState) (nad pcb1 pcb2 : Nat) (xs : List Nat)
    (outs : List RecvOutcome)
    (hI1 : T1PRIME_PCB_IS_I pcb1 = true)
    (hns1 : T1PRIME_PCB_I_GET_NS pcb1 = st.receive_counter)
    (hI2 : T1PRIME_PCB_IS_I pcb2 = true)
    (hns2 : T1PRIME_PCB_I_GET_NS pcb2 = st.receive_counter)
    (hm2 : T1PRIME_PCB_I_HAS_MORE pcb2 = false) :
    recvLoopAux (fuel + 1) st none ⟨nad, pcb1, []⟩ outs
      = ⟨.error .invalidBlock, st, [], outs⟩ ∧
    recvLoopAux (fuel + 1) st (some xs) ⟨nad, pcb2, []⟩ outs
      = ⟨.ok xs, { st with receive_counter := st.receive_counter ^^^ 0x01 },
         [], outs⟩ := by
  constructor
  · simp only [recvLoopAux]
    simp [hI1, hns1]
  · simp only [recvLoopAux]
    simp [hI2, hns2, hm2]

theorem claim_C10_witness :
    recvLoopAux 1 initialProtocolState none ⟨0x12, 0x20, []⟩ []
      = ⟨.error .invalidBlock, initialProtocolState, [], []⟩ ∧
    recvLoopAux 1 initialProtocolState (some [5]) ⟨0x12, 0x00, []⟩ []
      = ⟨.ok [5], { initialProtocolState with
          receive_counter := initialProtocolState.receive_counter ^^^ 0x01 },
         [], []⟩ :=
  claim_C10_zero_length_response_i_block 0 initialProtocolState 0x12 0x20 0x00 [5] []
    (by decide) (by decide) (by decide) (by decide) (by decide)

end T1Prime

